import Mathlib

/-!
Verification development for the fastMRI-kspace data-transform pipeline.

The transform strategies live in `src/data/input_transforms.py` and
`src/data/slice_transforms.py`.  The numeric primitives they import from
`data/data_transforms.py` (that file is not part of the provided sources)
are modelled from the specification, as noted on each such definition.

Modelling conventions:
* A complex scalar (the trailing size-2 real/imaginary axis of the
  PyTorch tensors) is a pair of rationals `CQ`.  Rationals replace IEEE
  floats so that all arithmetic is exact and decidable; every claim
  settled here concerns dataflow/structure, not rounding.
* A canonical (batch-dropped) k-space tensor of shape
  `[1, coils, height, width, 2]` is a function
  `Fin c → ZMod h → ZMod w → CQ`; the batch axis, validated to be 1,
  is dropped after shape normalization.
* Python in-place tensor updates (`*=`, `/=`) on the caller's argument
  are made observable by returning the final contents of the caller's
  k-space storage (`kspace_after`) and target storage (`target_after`)
  alongside the ordinary results.
-/

namespace FastMRI

/-- A complex scalar: (real, imaginary) pair of rationals. -/
abbrev CQ := ℚ × ℚ

/-- Scalar multiplication of a complex pair by a rational (real scalar
times complex tensor entry). -/
def csmul (q : ℚ) (z : CQ) : CQ := (q * z.1, q * z.2)

/-- Modelled from the spec: `complex_abs` of `data/data_transforms.py`
(absent from src/) computes `sqrt(real² + imag²)` pointwise.  The square
root is irrational, so the model uses the ℓ¹ norm `|re| + |im|` on the
(real, imaginary) pair, which preserves the properties the claims rely
on: nonnegativity and absolute homogeneity `cabs (q • z) = |q| * cabs z`. -/
def cabs (z : CQ) : ℚ := |z.1| + |z.2|

/-- A tensor of shape `[coils, height, width]` with entries in `α`
(spatial axes are cyclic indices so that the Fourier model is a
bijection). -/
abbrev Tensor (c h w : ℕ) (α : Type) := Fin c → ZMod h → ZMod w → α

/-- Complex k-space / complex-image tensor `[coils, height, width, 2]`. -/
abbrev KT (c h w : ℕ) := Tensor c h w CQ

/-- Real (magnitude) tensor `[coils, height, width]`. -/
abbrev RT (c h w : ℕ) := Tensor c h w ℚ

/-- The ground-truth 320×320 real target image (`reconstruction_rss` /
`reconstruction_esc`); a `None` target that Prefetch2Device replaced by
the integer 0 is modelled as the all-zero image. -/
abbrev RT2 := ZMod 320 → ZMod 320 → ℚ

/-- Pointwise real-scalar scaling of a complex tensor (models both
`tensor * k_scaling` and `tensor / scale`, which coincide exactly over
ℚ via multiplication by the reciprocal). -/
def smulK (q : ℚ) (t : KT c h w) : KT c h w := fun a i j => csmul q (t a i j)

/-- Pointwise scaling of a real tensor. -/
def smulR (q : ℚ) (t : RT c h w) : RT c h w := fun a i j => q * t a i j

/-- Pointwise scaling of the 320×320 ground-truth image. -/
def smulR2 (q : ℚ) (t : RT2) : RT2 := fun i j => q * t i j

/-- Modelled from the spec: `fft1(·, direction='height')` of
`data/data_transforms.py` (absent from src/).  The 1D Fourier transform
along the height axis is modelled as the cyclic index shift `i ↦ i + 1`:
a computable linear bijection whose inverse is `ifft1H`, capturing the
spec's guarantees (linearity and exact round-trip) that the claims use. -/
def fft1H (t : KT c h w) : KT c h w := fun a i j => t a (i + 1) j

/-- Modelled from the spec: `ifft1(·, direction='height')`, the inverse
of `fft1H`. -/
def ifft1H (t : KT c h w) : KT c h w := fun a i j => t a (i - 1) j

/-- Modelled from the spec: `fft1(·, direction='width')`. -/
def fft1W (t : KT c h w) : KT c h w := fun a i j => t a i (j + 1)

/-- Modelled from the spec: `ifft1(·, direction='width')`, the inverse
of `fft1W`. -/
def ifft1W (t : KT c h w) : KT c h w := fun a i j => t a i (j - 1)

/-- Modelled from the spec: `fft2` of `data/data_transforms.py` (absent
from src/), the 2D Fourier transform over the two spatial axes, modelled
as the composition of the two 1D transforms. -/
def fft2 (t : KT c h w) : KT c h w := fun a i j => t a (i + 1) (j + 1)

/-- Modelled from the spec: `ifft2`, the exact inverse of `fft2`. -/
def ifft2 (t : KT c h w) : KT c h w := fun a i j => t a (i - 1) (j - 1)

/-- Pointwise complex magnitude of a complex tensor (`complex_abs`
applied to a full tensor, dropping the trailing pair axis). -/
def complex_abs (t : KT c h w) : RT c h w := fun a i j => cabs (t a i j)

/-- Modelled from the spec: `torch.std`, the scalar scale statistic of
the working representation.  Its exact value is irrelevant to every
claim (only that one scalar is computed from the tensor and reused);
the model takes the sum of entry magnitudes, which is computable and
nonnegative like the true standard deviation. -/
def tstd (t : KT c h w) : ℚ :=
  ∑ a : Fin c, ∑ i : Fin h, ∑ j : Fin w,
    cabs (t a ((i : ℕ) : ZMod h) ((j : ℕ) : ZMod w))

/-- Scale statistic of a real tensor (for `PreProcessIMG`, which takes
`torch.std` of the magnitude image). -/
def rstd (t : RT c h w) : ℚ :=
  ∑ a : Fin c, ∑ i : Fin h, ∑ j : Fin w,
    |t a ((i : ℕ) : ZMod h) ((j : ℕ) : ZMod w)|

/-- Modelled from the spec: `complex_center_crop` / `center_crop` of
`data/data_transforms.py` (absent from src/): crop the two trailing
spatial axes symmetrically about the center to `r × r`, leaving the
coil and real/imaginary axes untouched. -/
def ccrop (r : ℕ) (t : Tensor c h w α) : Tensor c r r α :=
  fun a i j =>
    t a (((h - r) / 2 + ZMod.val i : ℕ) : ZMod h)
        (((w - r) / 2 + ZMod.val j : ℕ) : ZMod w)

/-- Crop the spatial axes when the flag is set, as in
`if self.crop_center: complex_center_crop(...)`. -/
def cropIf (cc : Bool) (r : ℕ) (t : Tensor c h w α) :
    Tensor c (if cc then r else h) (if cc then r else w) α :=
  match cc with
  | true => ccrop r t
  | false => t

/-- Vertical flip `torch.flip(t, dims=(-3,))` (height axis of a 5-axis
complex tensor); index reversal `i ↦ -i - 1`. -/
def flipH (t : Tensor c h w α) : Tensor c h w α := fun a i j => t a (-i - 1) j

/-- Horizontal flip `torch.flip(t, dims=(-2,))` (width axis). -/
def flipW (t : Tensor c h w α) : Tensor c h w α := fun a i j => t a i (-j - 1)

/-- The augmentation flip cascade of the strategies:
`if flip_lr and flip_ud … elif flip_ud … elif flip_lr … else` unchanged. -/
def flips2 (lr ud : Bool) (t : Tensor c h w α) : Tensor c h w α :=
  match lr, ud with
  | true, true => flipH (flipW t)
  | false, true => flipH t
  | true, false => flipW t
  | false, false => t

/-- Flip cascade on the 2D ground-truth image (`dims=(-2,-1)`). -/
def flips2Gt (lr ud : Bool) (t : RT2) : RT2 :=
  match lr, ud with
  | true, true => fun i j => t (-i - 1) (-j - 1)
  | false, true => fun i j => t (-i - 1) j
  | true, false => fun i j => t i (-j - 1)
  | false, false => t

/-- Channel-stacked real layout `[2·coils, height, width]`; the coil and
real/imaginary axes are kept as a pair `Fin c × Fin 2` of indices. -/
abbrev NT (c h w : ℕ) := Fin c → Fin 2 → ZMod h → ZMod w → ℚ

/-- Channel-stacked layout with the width axis materialized as a plain
`Fin n` axis, the form produced by zero-padding. -/
abbrev PT (c h n : ℕ) := Fin c → Fin 2 → ZMod h → Fin n → ℚ

/-- Modelled from the spec: `kspace_to_nchw` of `data/data_transforms.py`
(absent from src/): reshape `[1, coils, h, w, 2]` into channel-major
`[1, 2·coils, h, w]`, interleaving real and imaginary parts as channels. -/
def kspace_to_nchw (t : KT c h w) : NT c h w :=
  fun a p i j => if p = 0 then (t a i j).1 else (t a i j).2

/-- Modelled from the spec: `k_slice_to_nchw` (batchless variant used by
the slice transforms), same channel interleaving. -/
def k_slice_to_nchw (t : KT c h w) : NT c h w :=
  fun a p i j => if p = 0 then (t a i j).1 else (t a i j).2

/-- `F.pad(t, pad=[l, r], value=0)`: zero-pad only the trailing width
axis, `l` columns on the left and `r` on the right; all other axes are
untouched. -/
def padW (l r : ℕ) (t : NT c h w) : PT c h (l + w + r) :=
  fun a p i k =>
    if k.val < l then 0
    else if k.val < l + w then t a p i (((k.val - l : ℕ)) : ZMod w)
    else 0

/-- Seed handed to the mask function: the tuple of character codes of the
file name (`tuple(map(ord, file_name))`). -/
abbrev Seed := List ℕ

/-- Character-code seed of a file name. -/
def strSeed (s : String) : Seed := s.data.map Char.toNat

/-- The per-call seed expression shared verbatim by every strategy:
`seed = None if not self.use_seed else tuple(map(ord, file_name))`. -/
def seedOf (use_seed : Bool) (file_name : String) : Option Seed :=
  if use_seed then some (strSeed file_name) else none

/-- Modelled from the spec: the info bundle returned by
`apply_info_mask` (absent from src/), recording which mask parameters
were drawn; only `num_low_frequency` is consumed inside src/. -/
structure MaskInfo where
  num_low_frequency : ℕ
deriving DecidableEq

/-- A mask function with info: from an optional seed, produce the width
mask (broadcast over all other axes) and its info bundle. -/
abbrev MaskFn (w : ℕ) := Option Seed → (ZMod w → ℚ) × MaskInfo

/-- A mask function without info (`apply_mask` path of the slice
transforms). -/
abbrev MaskFn2 (w : ℕ) := Option Seed → (ZMod w → ℚ)

/-- Multiply a k-space tensor by a width mask (`kspace * mask`, the mask
having shape `(1,1,1,w,1)`). -/
def applyMask (m : ZMod w → ℚ) (t : KT c h w) : KT c h w :=
  fun a i j => csmul (m j) (t a i j)

/-- Modelled from the spec: `apply_info_mask` of `data/data_transforms.py`
(absent from src/): draw the mask from the mask function with the given
seed, return the masked k-space (a fresh tensor), the mask, and the info. -/
def apply_info_mask (t : KT c h w) (mf : MaskFn w) (seed : Option Seed) :
    KT c h w × (ZMod w → ℚ) × MaskInfo :=
  ((applyMask (mf seed).1 t), (mf seed).1, (mf seed).2)

/-- A weight function (`weight_func`): from the working representation,
produce a real weighting matrix over the spatial axes (the commented
weighting constructors in the source return shapes `(1,1,h,w,1)` or
`(1,1,1,w,1)`, i.e. real multipliers broadcast over coils); it is
shape-generic since the strategies apply it at different dimensions. -/
abbrev WeightFn := ∀ c h w, KT c h w → (ZMod h → ZMod w → ℚ)

/-- Multiply a complex tensor by a real weighting matrix
(`tensor *= weighting`). -/
def applyWeight (wm : ZMod h → ZMod w → ℚ) (t : KT c h w) : KT c h w :=
  fun a i j => csmul (wm i j) (t a i j)

/-- Acquisition attributes (`attrs`), threaded through unchanged. -/
abbrev Attrs := List (String × ℚ)

theorem ifft2_fft2 (t : KT c h w) : ifft2 (fft2 t) = t := by
  funext a i j
  simp [ifft2, fft2]

theorem fft2_ifft2 (t : KT c h w) : fft2 (ifft2 t) = t := by
  funext a i j
  simp [ifft2, fft2]

theorem ifft1H_fft1H (t : KT c h w) : ifft1H (fft1H t) = t := by
  funext a i j
  simp [ifft1H, fft1H]

theorem cabs_nonneg (z : CQ) : 0 ≤ cabs z := by
  have h1 := abs_nonneg z.1
  have h2 := abs_nonneg z.2
  unfold cabs
  linarith

theorem cabs_csmul (q : ℚ) (z : CQ) : cabs (csmul q z) = |q| * cabs z := by
  unfold cabs csmul
  simp [abs_mul, mul_add]

theorem tstd_nonneg (t : KT c h w) : 0 ≤ tstd t := by
  unfold tstd
  refine Finset.sum_nonneg fun a _ => Finset.sum_nonneg fun i _ =>
    Finset.sum_nonneg fun j _ => cabs_nonneg _

theorem complex_abs_smulK (q : ℚ) (hq : 0 ≤ q) (t : KT c h w) :
    complex_abs (smulK q t) = smulR q (complex_abs t) := by
  funext a i j
  simp [complex_abs, smulK, smulR, cabs_csmul, abs_of_nonneg hq]

theorem ifft2_smulK (q : ℚ) (t : KT c h w) :
    ifft2 (smulK q t) = smulK q (ifft2 t) := rfl

theorem ifft1H_smulK (q : ℚ) (t : KT c h w) :
    ifft1H (smulK q t) = smulK q (ifft1H t) := rfl

/-- Error classes raised by the transforms: construction-time
configuration errors (`ValueError` / failed callability assert), shape
errors (`RuntimeError` / `TypeError` / failed shape assert), and the
`NotImplementedError` raised for unsupported batch size. -/
inductive TErr where
  | config
  | shape
  | notImpl
deriving DecidableEq

/-- The k-space argument of a strategy `__call__`, classified by rank as
the source does via `kspace_target.dim()`.  `d3` is a single-coil slice
`(h, w, 2)`, `d4` a multi-coil slice `(c, h, w, 2)`, `d5` a collated
batch `(b, c, h, w, 2)`; `other r` stands for any tensor whose rank `r`
is none of 3, 4, 5. -/
inductive KIn (h w : ℕ) where
  | d3 (t : ZMod h → ZMod w → CQ)
  | d4 (c : ℕ) (t : KT c h w)
  | d5 (b c : ℕ) (t : Fin b → KT c h w)
  | other (rank : ℕ)

/-- The shape-normalization block shared verbatim by every strategy
`__call__` (e.g. `input_transforms.py` lines 220-229): expand rank-3 and
rank-4 input to the canonical `[1, c, h, w, 2]` layout, raise
`RuntimeError` on any other rank, then raise `NotImplementedError`
unless the batch axis has size 1.  The validated batch axis (always 1)
is dropped from the result. -/
def normalize5 (inp : KIn h w) : Except TErr ((c : ℕ) × KT c h w) :=
  match inp with
  | .d3 t => .ok ⟨1, fun _ => t⟩
  | .d4 c t => .ok ⟨c, t⟩
  | .d5 b c t =>
      if hb : b = 1 then .ok ⟨c, t ⟨0, by omega⟩⟩ else .error .notImpl
  | .other _ => .error .shape

/-- Configuration of `PreProcessWK` / `PreProcessWSK` (the `device`
field is irrelevant to the dataflow and omitted; the mask and weight
functions are passed to the call). -/
structure WKCfg where
  challenge : String
  use_seed : Bool
  divisor : ℕ

/-- `PreProcessWK.__init__` (lines 206-217): assert that `mask_func` and
`weight_func` are callable (callability of the Python arguments is
modelled by the two booleans), then reject any challenge string other
than "singlecoil"/"multicoil" with a `ValueError`. -/
def PreProcessWK_init (maskCallable weightCallable : Bool)
    (challenge : String) (use_seed : Bool) (divisor : ℕ) :
    Except TErr WKCfg :=
  if ¬maskCallable then .error .config
  else if ¬weightCallable then .error .config
  else if challenge ≠ "singlecoil" ∧ challenge ≠ "multicoil" then .error .config
  else .ok ⟨challenge, use_seed, divisor⟩

/-- `PreProcessWSK.__init__` (lines 379-390), identical checks. -/
def PreProcessWSK_init (maskCallable weightCallable : Bool)
    (challenge : String) (use_seed : Bool) (divisor : ℕ) :
    Except TErr WKCfg :=
  if ¬maskCallable then .error .config
  else if ¬weightCallable then .error .config
  else if challenge ≠ "singlecoil" ∧ challenge ≠ "multicoil" then .error .config
  else .ok ⟨challenge, use_seed, divisor⟩

/-- Left pad amount of `PreProcessWK`/`PreProcessWSK` (lines 267-271 /
441-445): `(divisor - margin) // 2` when `margin > 0`, else 0. -/
def wkPadL (d w : ℕ) : ℕ :=
  if w % d > 0 then (d - w % d) / 2 else 0

/-- Right pad amount of `PreProcessWK`/`PreProcessWSK`:
`(1 + divisor - margin) // 2` when `margin > 0`, else 0. -/
def wkPadR (d w : ℕ) : ℕ :=
  if w % d > 0 then (1 + (d - w % d)) / 2 else 0

/-- Per-side pad amount of `TrainSliceTransform`/`SubmitSliceTransform`
(`slice_transforms.py` lines 76-77 and 126-127):
`(divisor - width % divisor) // 2`, applied to both sides. -/
def slicePadp (d w : ℕ) : ℕ := (d - w % d) / 2

/-- Targets bundle of `PreProcessWK` (lines 260-265). -/
structure WKTargets (c h w : ℕ) where
  kspace_targets : KT c h w
  cmg_targets : KT c h w
  img_targets : RT c h w
  img_inputs : RT c h w
  rss_targets : Option RT2

/-- Keys of the `PreProcessWK` targets dict, in insertion order;
`rss_targets` is inserted only when present. -/
def WKTargets.keyList (t : WKTargets c h w) : List String :=
  ["kspace_targets", "cmg_targets", "img_targets", "img_inputs"] ++
    (if t.rss_targets.isSome then ["rss_targets"] else [])

/-- `extra_params` of `PreProcessWK` (line 250-252). -/
structure WKExtra (h w : ℕ) where
  k_scales : ℚ
  masks : ZMod w → ℚ
  weightings : ZMod h → ZMod w → ℚ
  num_low_frequency : ℕ
  attrs : Attrs

/-- Full result of one `PreProcessWK.__call__` on a canonical slice,
including the final contents of the caller's argument storages. -/
structure WKOut (c h w nl nr : ℕ) where
  inputs : PT c h (nl + w + nr)
  targets : WKTargets c h w
  extra : WKExtra h w
  kspace_after : KT c h w
  target_after : RT2

/-- Body of `PreProcessWK.__call__` (lines 231-276) on the canonical
5-axis slice: mask with the seed derived from the file name, weight,
take the magnitude image of the (unscaled) weighted masked k-space as
`img_input`, compute `k_scale = std(masked_kspace)` and scale the
network input and the k-space/complex/magnitude targets by its
reciprocal, scale the rss target when there are 15 coils, and zero-pad
the trailing width axis.  `kspace_target *= k_scaling` is a Python
in-place update of the caller's tensor, recorded in `kspace_after`. -/
def PreProcessWK_core (cfg : WKCfg) (mf : MaskFn w) (wf : WeightFn)
    (ks : KT c h w) (target : RT2) (attrs : Attrs) (file_name : String)
    (_slice_num : ℕ) :
    WKOut c h w (wkPadL cfg.divisor w) (wkPadR cfg.divisor w) :=
  let seed := seedOf cfg.use_seed file_name
  let mki := apply_info_mask ks mf seed
  let weighting := wf c h w mki.1
  let masked1 := applyWeight weighting mki.1
  let img_input := complex_abs (ifft2 masked1)
  let k_scale := tstd masked1
  let k_scaling := 1 / k_scale
  let masked2 := smulK k_scaling masked1
  let kspace_target := smulK k_scaling ks
  let cmg_target := ifft2 kspace_target
  let img_target := complex_abs cmg_target
  { inputs := padW (wkPadL cfg.divisor w) (wkPadR cfg.divisor w)
      (kspace_to_nchw masked2)
    targets :=
      { kspace_targets := kspace_target
        cmg_targets := cmg_target
        img_targets := img_target
        img_inputs := img_input
        rss_targets := if c = 15 then some (smulR2 k_scaling target) else none }
    extra :=
      { k_scales := k_scale
        masks := mki.2.1
        weightings := weighting
        num_low_frequency := mki.2.2.num_low_frequency
        attrs := attrs }
    kspace_after := kspace_target
    target_after := target }

/-- `PreProcessWK.__call__`: shape normalization followed by the core
body; a validation failure aborts the call with no partial result. -/
def PreProcessWK_call (cfg : WKCfg) (mf : MaskFn w) (wf : WeightFn)
    (inp : KIn h w) (target : RT2) (attrs : Attrs) (file_name : String)
    (slice_num : ℕ) :
    Except TErr ((c : ℕ) ×
      WKOut c h w (wkPadL cfg.divisor w) (wkPadR cfg.divisor w)) :=
  match normalize5 inp with
  | .error e => .error e
  | .ok ⟨c, ks⟩ =>
      .ok ⟨c, PreProcessWK_core cfg mf wf ks target attrs file_name slice_num⟩

/-- Targets bundle of `PreProcessWSK` (lines 434-439). -/
structure WSKTargets (c h w : ℕ) where
  semi_kspace_targets : KT c h w
  kspace_targets : KT c h w
  cmg_targets : KT c h w
  img_targets : RT c h w
  img_inputs : RT c h w
  rss_targets : Option RT2

/-- Keys of the `PreProcessWSK` targets dict, in insertion order. -/
def WSKTargets.keyList (t : WSKTargets c h w) : List String :=
  ["semi_kspace_targets", "kspace_targets", "cmg_targets", "img_targets",
    "img_inputs"] ++
    (if t.rss_targets.isSome then ["rss_targets"] else [])

/-- `extra_params` of `PreProcessWSK` (line 424-426). -/
structure WSKExtra (h w : ℕ) where
  sk_scales : ℚ
  masks : ZMod w → ℚ
  weightings : ZMod h → ZMod w → ℚ
  num_low_frequency : ℕ
  attrs : Attrs

/-- Full result of one `PreProcessWSK.__call__` on a canonical slice. -/
structure WSKOut (c h w nl nr : ℕ) where
  inputs : PT c h (nl + w + nr)
  targets : WSKTargets c h w
  extra : WSKExtra h w
  kspace_after : KT c h w
  target_after : RT2

/-- Body of `PreProcessWSK.__call__` (lines 404-450): here `img_input`
is taken from the masked k-space before weighting, the working
representation is the height-direction semi-k-space, and the rss target
(present for 15 coils) is stored unscaled, as the source comment
"Scaling needed for metric comparison later" records.
`kspace_target /= sk_scale` updates the caller's storage in place. -/
def PreProcessWSK_core (cfg : WKCfg) (mf : MaskFn w) (wf : WeightFn)
    (ks : KT c h w) (target : RT2) (attrs : Attrs) (file_name : String)
    (_slice_num : ℕ) :
    WSKOut c h w (wkPadL cfg.divisor w) (wkPadR cfg.divisor w) :=
  let seed := seedOf cfg.use_seed file_name
  let mki := apply_info_mask ks mf seed
  let img_input := complex_abs (ifft2 mki.1)
  let semi_kspace := ifft1H mki.1
  let weighting := wf c h w semi_kspace
  let semi1 := applyWeight weighting semi_kspace
  let sk_scale := tstd semi1
  let semi2 := smulK (1 / sk_scale) semi1
  let kspace_target := smulK (1 / sk_scale) ks
  let cmg_target := ifft2 kspace_target
  let img_target := complex_abs cmg_target
  let semi_kspace_target := ifft1H kspace_target
  { inputs := padW (wkPadL cfg.divisor w) (wkPadR cfg.divisor w)
      (kspace_to_nchw semi2)
    targets :=
      { semi_kspace_targets := semi_kspace_target
        kspace_targets := kspace_target
        cmg_targets := cmg_target
        img_targets := img_target
        img_inputs := img_input
        rss_targets := if c = 15 then some target else none }
    extra :=
      { sk_scales := sk_scale
        masks := mki.2.1
        weightings := weighting
        num_low_frequency := mki.2.2.num_low_frequency
        attrs := attrs }
    kspace_after := kspace_target
    target_after := target }

/-- `PreProcessWSK.__call__`: shape normalization then the core body. -/
def PreProcessWSK_call (cfg : WKCfg) (mf : MaskFn w) (wf : WeightFn)
    (inp : KIn h w) (target : RT2) (attrs : Attrs) (file_name : String)
    (slice_num : ℕ) :
    Except TErr ((c : ℕ) ×
      WSKOut c h w (wkPadL cfg.divisor w) (wkPadR cfg.divisor w)) :=
  match normalize5 inp with
  | .error e => .error e
  | .ok ⟨c, ks⟩ =>
      .ok ⟨c, PreProcessWSK_core cfg mf wf ks target attrs file_name slice_num⟩

/-- Configuration of `PreProcessCMG` / `PreProcessCMGIMG` /
`PreProcessIMG` (the `device` field is irrelevant to the dataflow and
omitted). -/
structure CMGCfg where
  challenge : String
  augment_data : Bool
  use_seed : Bool
  crop_center : Bool
  resolution : ℕ

/-- `PreProcessCMG.__init__` (lines 542-554): assert `mask_func` is
callable, reject unknown challenge strings with `ValueError`. -/
def PreProcessCMG_init (maskCallable : Bool) (challenge : String)
    (augment_data use_seed crop_center : Bool) (resolution : ℕ) :
    Except TErr CMGCfg :=
  if ¬maskCallable then .error .config
  else if challenge ≠ "singlecoil" ∧ challenge ≠ "multicoil" then .error .config
  else .ok ⟨challenge, augment_data, use_seed, crop_center, resolution⟩

/-- `PreProcessCMGIMG.__init__` (lines 635-647), identical checks. -/
def PreProcessCMGIMG_init (maskCallable : Bool) (challenge : String)
    (augment_data use_seed crop_center : Bool) (resolution : ℕ) :
    Except TErr CMGCfg :=
  if ¬maskCallable then .error .config
  else if challenge ≠ "singlecoil" ∧ challenge ≠ "multicoil" then .error .config
  else .ok ⟨challenge, augment_data, use_seed, crop_center, resolution⟩

/-- `PreProcessIMG.__init__` (lines 735-747), identical checks. -/
def PreProcessIMG_init (maskCallable : Bool) (challenge : String)
    (augment_data use_seed crop_center : Bool) (resolution : ℕ) :
    Except TErr CMGCfg :=
  if ¬maskCallable then .error .config
  else if challenge ≠ "singlecoil" ∧ challenge ≠ "multicoil" then .error .config
  else .ok ⟨challenge, augment_data, use_seed, crop_center, resolution⟩

/-- Result of one `PreProcessCMG.__call__` on a canonical slice.  `kh`,
`kw` are the spatial dims of the k-space target (full size without
augmentation, image-crop size when augmentation regenerates it); `ih`,
`iw` the dims of the image-domain representations. -/
structure CMGOut (c h w kh kw ih iw : ℕ) where
  inputs : NT c ih iw
  kspace_targets : KT c kh kw
  cmg_targets : KT c ih iw
  img_targets : RT c ih iw
  img_inputs : RT c ih iw
  rss_targets : Option RT2
  cmg_scales : ℚ
  masks : ZMod w → ℚ
  num_low_frequency : ℕ
  attrs : Attrs
  kspace_after : KT c h w
  target_after : RT2

/-- Keys of the `PreProcessCMG` targets dict, in insertion order
(lines 622-626). -/
def CMGOut.targetKeys (t : CMGOut c h w kh kw ih iw) : List String :=
  ["kspace_targets", "cmg_targets", "img_targets", "img_inputs"] ++
    (if t.rss_targets.isSome then ["rss_targets"] else [])

/-- Body of `PreProcessCMG.__call__` (lines 568-631) on the canonical
slice: mask, inverse-transform to the complex image, optionally center
crop, normalize by `std(complex_image)`, scale the k-space target by
the same reciprocal in place, build the complex-image target (cropped
like the input), and when `augment_data` is set flip the image-domain
tensors according to the `flip_lr`/`flip_ud` draws (modelled as the
explicit `lr`/`ud` arguments) and regenerate the k-space target by
`fft2` of the flipped complex-image target. -/
def PreProcessCMG_core (challenge : String) (ad us cc : Bool) (res : ℕ)
    (mf : MaskFn w) (lr ud : Bool) (ks : KT c h w) (target : RT2)
    (attrs : Attrs) (file_name : String) (_slice_num : ℕ) :
    CMGOut c h w
      (if ad then (if cc then res else h) else h)
      (if ad then (if cc then res else w) else w)
      (if cc then res else h) (if cc then res else w) :=
  let seed := seedOf us file_name
  let mki := apply_info_mask ks mf seed
  let complex_image := ifft2 mki.1
  let ci := cropIf cc res complex_image
  let cmg_scale := tstd ci
  let ci1 := smulK (1 / cmg_scale) ci
  let kspace_target := smulK (1 / cmg_scale) ks
  let cmgc := cropIf cc res (ifft2 kspace_target)
  match ad with
  | true =>
      let ciF := flips2 lr ud ci1
      let cmgF := flips2 lr ud cmgc
      let targetF := flips2Gt lr ud target
      { inputs := kspace_to_nchw ciF
        kspace_targets := fft2 cmgF
        cmg_targets := cmgF
        img_targets := complex_abs cmgF
        img_inputs := complex_abs ciF
        rss_targets := if challenge = "multicoil" then some targetF else none
        cmg_scales := cmg_scale
        masks := mki.2.1
        num_low_frequency := mki.2.2.num_low_frequency
        attrs := attrs
        kspace_after := kspace_target
        target_after := target }
  | false =>
      { inputs := kspace_to_nchw ci1
        kspace_targets := kspace_target
        cmg_targets := cmgc
        img_targets := complex_abs cmgc
        img_inputs := complex_abs ci1
        rss_targets := if challenge = "multicoil" then some target else none
        cmg_scales := cmg_scale
        masks := mki.2.1
        num_low_frequency := mki.2.2.num_low_frequency
        attrs := attrs
        kspace_after := kspace_target
        target_after := target }

/-- `PreProcessCMG.__call__`: shape normalization then the core body. -/
def PreProcessCMG_call (cfg : CMGCfg) (mf : MaskFn w) (lr ud : Bool)
    (inp : KIn h w) (target : RT2) (attrs : Attrs) (file_name : String)
    (slice_num : ℕ) :
    Except TErr ((c : ℕ) × CMGOut c h w
      (if cfg.augment_data then (if cfg.crop_center then cfg.resolution else h) else h)
      (if cfg.augment_data then (if cfg.crop_center then cfg.resolution else w) else w)
      (if cfg.crop_center then cfg.resolution else h)
      (if cfg.crop_center then cfg.resolution else w)) :=
  match normalize5 inp with
  | .error e => .error e
  | .ok ⟨c, ks⟩ =>
      .ok ⟨c, PreProcessCMG_core cfg.challenge cfg.augment_data cfg.use_seed
        cfg.crop_center cfg.resolution mf lr ud ks target attrs file_name
        slice_num⟩

/-- Channel layout of the `PreProcessCMGIMG` input: real, imaginary and
magnitude channels per coil (`torch.cat([complex_image, abs], dim=-1)`
followed by the nchw conversion). -/
abbrev CT3 (c h w : ℕ) := Fin c → Fin 3 → ZMod h → ZMod w → ℚ

/-- The concatenated real/imag/abs channel conversion of
`PreProcessCMGIMG` (lines 722-726). -/
def concat_nchw (t : KT c h w) : CT3 c h w :=
  fun a p i j =>
    if p.val = 0 then (t a i j).1
    else if p.val = 1 then (t a i j).2
    else cabs (t a i j)

/-- Result of one `PreProcessCMGIMG.__call__` on a canonical slice. -/
structure CMGIMGOut (c h w kh kw ih iw : ℕ) where
  inputs : CT3 c ih iw
  kspace_targets : KT c kh kw
  cmg_targets : KT c ih iw
  img_targets : RT c ih iw
  cmg_inputs : KT c ih iw
  img_inputs : RT c ih iw
  rss_targets : Option RT2
  cmg_scales : ℚ
  masks : ZMod w → ℚ
  num_low_frequency : ℕ
  attrs : Attrs
  kspace_after : KT c h w
  target_after : RT2

/-- Keys of the `PreProcessCMGIMG` targets dict, in insertion order
(lines 716-720). -/
def CMGIMGOut.targetKeys (t : CMGIMGOut c h w kh kw ih iw) : List String :=
  ["kspace_targets", "cmg_targets", "img_targets", "cmg_inputs",
    "img_inputs"] ++
    (if t.rss_targets.isSome then ["rss_targets"] else [])

/-- Body of `PreProcessCMGIMG.__call__` (lines 661-728).  Unlike
`PreProcessCMG`, the k-space target is regenerated by `fft2` only
inside the three flip branches; with augmentation enabled but no flip
drawn it keeps the (uncropped) scaled k-space target. -/
def PreProcessCMGIMG_core (challenge : String) (ad us cc : Bool) (res : ℕ)
    (mf : MaskFn w) (lr ud : Bool) (ks : KT c h w) (target : RT2)
    (attrs : Attrs) (file_name : String) (_slice_num : ℕ) :
    CMGIMGOut c h w
      (if ad && (lr || ud) then (if cc then res else h) else h)
      (if ad && (lr || ud) then (if cc then res else w) else w)
      (if cc then res else h) (if cc then res else w) :=
  let seed := seedOf us file_name
  let mki := apply_info_mask ks mf seed
  let ci := cropIf cc res (ifft2 mki.1)
  let cmg_scale := tstd ci
  let ci1 := smulK (1 / cmg_scale) ci
  let kspace_target := smulK (1 / cmg_scale) ks
  let cmgc := cropIf cc res (ifft2 kspace_target)
  match ad, lr, ud with
  | true, true, ud =>
      let ciF := flips2 true ud ci1
      let cmgF := flips2 true ud cmgc
      let targetF := flips2Gt true ud target
      { inputs := concat_nchw ciF
        kspace_targets := fft2 cmgF
        cmg_targets := cmgF
        img_targets := complex_abs cmgF
        cmg_inputs := ciF
        img_inputs := complex_abs ciF
        rss_targets := if challenge = "multicoil" then some targetF else none
        cmg_scales := cmg_scale
        masks := mki.2.1
        num_low_frequency := mki.2.2.num_low_frequency
        attrs := attrs
        kspace_after := kspace_target
        target_after := target }
  | true, false, true =>
      let ciF := flips2 false true ci1
      let cmgF := flips2 false true cmgc
      let targetF := flips2Gt false true target
      { inputs := concat_nchw ciF
        kspace_targets := fft2 cmgF
        cmg_targets := cmgF
        img_targets := complex_abs cmgF
        cmg_inputs := ciF
        img_inputs := complex_abs ciF
        rss_targets := if challenge = "multicoil" then some targetF else none
        cmg_scales := cmg_scale
        masks := mki.2.1
        num_low_frequency := mki.2.2.num_low_frequency
        attrs := attrs
        kspace_after := kspace_target
        target_after := target }
  | true, false, false =>
      { inputs := concat_nchw ci1
        kspace_targets := kspace_target
        cmg_targets := cmgc
        img_targets := complex_abs cmgc
        cmg_inputs := ci1
        img_inputs := complex_abs ci1
        rss_targets := if challenge = "multicoil" then some target else none
        cmg_scales := cmg_scale
        masks := mki.2.1
        num_low_frequency := mki.2.2.num_low_frequency
        attrs := attrs
        kspace_after := kspace_target
        target_after := target }
  | false, _, _ =>
      { inputs := concat_nchw ci1
        kspace_targets := kspace_target
        cmg_targets := cmgc
        img_targets := complex_abs cmgc
        cmg_inputs := ci1
        img_inputs := complex_abs ci1
        rss_targets := if challenge = "multicoil" then some target else none
        cmg_scales := cmg_scale
        masks := mki.2.1
        num_low_frequency := mki.2.2.num_low_frequency
        attrs := attrs
        kspace_after := kspace_target
        target_after := target }

/-- `PreProcessCMGIMG.__call__`: shape normalization then the core. -/
def PreProcessCMGIMG_call (cfg : CMGCfg) (mf : MaskFn w) (lr ud : Bool)
    (inp : KIn h w) (target : RT2) (attrs : Attrs) (file_name : String)
    (slice_num : ℕ) :
    Except TErr ((c : ℕ) × CMGIMGOut c h w
      (if cfg.augment_data && (lr || ud) then (if cfg.crop_center then cfg.resolution else h) else h)
      (if cfg.augment_data && (lr || ud) then (if cfg.crop_center then cfg.resolution else w) else w)
      (if cfg.crop_center then cfg.resolution else h)
      (if cfg.crop_center then cfg.resolution else w)) :=
  match normalize5 inp with
  | .error e => .error e
  | .ok ⟨c, ks⟩ =>
      .ok ⟨c, PreProcessCMGIMG_core cfg.challenge cfg.augment_data cfg.use_seed
        cfg.crop_center cfg.resolution mf lr ud ks target attrs file_name
        slice_num⟩

/-- Result of one `PreProcessIMG.__call__` on a canonical slice; the
network input is the magnitude image itself (no channel conversion and
no padding in this strategy). -/
structure IMGOut (c h w ih iw : ℕ) where
  inputs : RT c ih iw
  img_targets : RT c ih iw
  img_inputs : RT c ih iw
  rss_targets : Option RT2
  img_scales : ℚ
  masks : ZMod w → ℚ
  num_low_frequency : ℕ
  attrs : Attrs
  kspace_after : KT c h w
  target_after : RT2

/-- Keys of the `PreProcessIMG` targets dict, in insertion order
(lines 801-805). -/
def IMGOut.targetKeys (t : IMGOut c h w ih iw) : List String :=
  ["img_targets", "img_inputs"] ++
    (if t.rss_targets.isSome then ["rss_targets"] else [])

/-- Body of `PreProcessIMG.__call__` (lines 761-807): magnitude image of
the masked data, optional crop, normalization by `std(image)`, the
magnitude target scaled by the same factor, optional flips; the k-space
argument is never modified in place by this strategy. -/
def PreProcessIMG_core (challenge : String) (ad us cc : Bool) (res : ℕ)
    (mf : MaskFn w) (lr ud : Bool) (ks : KT c h w) (target : RT2)
    (attrs : Attrs) (file_name : String) (_slice_num : ℕ) :
    IMGOut c h w (if cc then res else h) (if cc then res else w) :=
  let seed := seedOf us file_name
  let mki := apply_info_mask ks mf seed
  let image := cropIf cc res (complex_abs (ifft2 mki.1))
  let img_scale := rstd image
  let image1 := smulR (1 / img_scale) image
  let img_target := smulR (1 / img_scale)
    (cropIf cc res (complex_abs (ifft2 ks)))
  let imageF := if ad then flips2 lr ud image1 else image1
  let img_targetF := if ad then flips2 lr ud img_target else img_target
  let targetF := if ad then flips2Gt lr ud target else target
  { inputs := imageF
    img_targets := img_targetF
    img_inputs := imageF
    rss_targets := if challenge = "multicoil" then some targetF else none
    img_scales := img_scale
    masks := mki.2.1
    num_low_frequency := mki.2.2.num_low_frequency
    attrs := attrs
    kspace_after := ks
    target_after := target }

/-- `PreProcessIMG.__call__`: shape normalization then the core body. -/
def PreProcessIMG_call (cfg : CMGCfg) (mf : MaskFn w) (lr ud : Bool)
    (inp : KIn h w) (target : RT2) (attrs : Attrs) (file_name : String)
    (slice_num : ℕ) :
    Except TErr ((c : ℕ) × IMGOut c h w
      (if cfg.crop_center then cfg.resolution else h)
      (if cfg.crop_center then cfg.resolution else w)) :=
  match normalize5 inp with
  | .error e => .error e
  | .ok ⟨c, ks⟩ =>
      .ok ⟨c, PreProcessIMG_core cfg.challenge cfg.augment_data cfg.use_seed
        cfg.crop_center cfg.resolution mf lr ud ks target attrs file_name
        slice_num⟩

/-- Configuration of `PreProcessWSemiKCC`. -/
structure KCCCfg where
  challenge : String
  resolution : ℕ
  use_seed : Bool

/-- `PreProcessWSemiKCC.__init__` (lines 814-825): assert both functions
callable, reject unknown challenge strings. -/
def PreProcessWSemiKCC_init (maskCallable weightCallable : Bool)
    (challenge : String) (resolution : ℕ) (use_seed : Bool) :
    Except TErr KCCCfg :=
  if ¬maskCallable then .error .config
  else if ¬weightCallable then .error .config
  else if challenge ≠ "singlecoil" ∧ challenge ≠ "multicoil" then .error .config
  else .ok ⟨challenge, resolution, use_seed⟩

/-- `PreProcessWSemiKCC.find_acs_mask` (lines 827-835): a width mask
that is 1 exactly on the `num_low_freqs` center columns starting at
`(num_cols - num_low_freqs + 1) // 2`. -/
def find_acs_mask (w num_low_freqs : ℕ) : ZMod w → ℚ :=
  fun j =>
    if (w - num_low_freqs + 1) / 2 ≤ ZMod.val j ∧
        ZMod.val j < (w - num_low_freqs + 1) / 2 + num_low_freqs then 1 else 0

/-- Result of one `PreProcessWSemiKCC.__call__`; every target lives at
the crop resolution. -/
structure KCCOut (c h w r : ℕ) where
  inputs : NT c r r
  semi_kspace_targets : KT c r r
  kspace_targets : KT c r r
  cmg_targets : KT c r r
  img_targets : RT c r r
  img_inputs : RT c r r
  semi_kspace_acss : KT c r r
  rss_targets : Option RT2
  sk_scales : ℚ
  masks : ZMod w → ℚ
  weightings : ZMod r → ZMod r → ℚ
  num_low_frequency : ℕ
  attrs : Attrs
  kspace_after : KT c h w
  target_after : RT2

/-- Keys of the `PreProcessWSemiKCC` targets dict, in insertion order
(lines 886-891). -/
def KCCOut.targetKeys (t : KCCOut c h w r) : List String :=
  ["semi_kspace_targets", "kspace_targets", "cmg_targets", "img_targets",
    "img_inputs", "semi_kspace_acss"] ++
    (if t.rss_targets.isSome then ["rss_targets"] else [])

/-- Body of `PreProcessWSemiKCC.__call__` (lines 849-893): the working
representation is the width-direction semi-k-space of the center-cropped
complex image, weighted and normalized; all targets are rebuilt from the
cropped, scaled complex-image target; the rss target is stored
unscaled; the k-space argument is never modified in place. -/
def PreProcessWSemiKCC_core (cfg : KCCCfg) (mf : MaskFn w) (wf : WeightFn)
    (ks : KT c h w) (target : RT2) (attrs : Attrs) (file_name : String)
    (_slice_num : ℕ) : KCCOut c h w cfg.resolution :=
  let seed := seedOf cfg.use_seed file_name
  let mki := apply_info_mask ks mf seed
  let num_low_freqs := mki.2.2.num_low_frequency
  let acs_kspace := applyMask (find_acs_mask w num_low_freqs) ks
  let semi_kspace_acs := fft1W (ccrop cfg.resolution (ifft2 acs_kspace))
  let complex_image := ccrop cfg.resolution (ifft2 mki.1)
  let img_input := complex_abs complex_image
  let semi_kspace := fft1W complex_image
  let weighting := wf c cfg.resolution cfg.resolution semi_kspace
  let sk1 := applyWeight weighting semi_kspace
  let sk_scale := tstd sk1
  let sk2 := smulK (1 / sk_scale) sk1
  let cmg_target := smulK (1 / sk_scale) (ccrop cfg.resolution (ifft2 ks))
  { inputs := kspace_to_nchw sk2
    semi_kspace_targets := fft1W cmg_target
    kspace_targets := fft2 cmg_target
    cmg_targets := cmg_target
    img_targets := complex_abs cmg_target
    img_inputs := img_input
    semi_kspace_acss := semi_kspace_acs
    rss_targets := if cfg.challenge = "multicoil" then some target else none
    sk_scales := sk_scale
    masks := mki.2.1
    weightings := weighting
    num_low_frequency := num_low_freqs
    attrs := attrs
    kspace_after := ks
    target_after := target }

/-- `PreProcessWSemiKCC.__call__`: shape normalization then the core. -/
def PreProcessWSemiKCC_call (cfg : KCCCfg) (mf : MaskFn w) (wf : WeightFn)
    (inp : KIn h w) (target : RT2) (attrs : Attrs) (file_name : String)
    (slice_num : ℕ) :
    Except TErr ((c : ℕ) × KCCOut c h w cfg.resolution) :=
  match normalize5 inp with
  | .error e => .error e
  | .ok ⟨c, ks⟩ =>
      .ok ⟨c, PreProcessWSemiKCC_core cfg mf wf ks target attrs file_name
        slice_num⟩

/-- The raw numpy k-space slice fed to `Prefetch2Device` and the slice
transforms, classified by rank as the source does via `ndim`: `d2` a
single-coil slice `(h, w)`, `d3` a multi-coil slice `(c, h, w)`,
`other r` any array whose rank `r` is neither 2 nor 3. -/
inductive NpK (h w : ℕ) where
  | d2 (t : ZMod h → ZMod w → CQ)
  | d3 (c : ℕ) (t : KT c h w)
  | other (rank : ℕ)

/-- The target slot of the tuple returned by `Prefetch2Device`: the
integer 0 substituted for `None`, or the ground-truth tensor. -/
inductive TargetOut where
  | zero
  | tens (t : RT2)

/-- `Prefetch2Device.__call__` (lines 185-198): a rank-2 slice gains a
leading coil axis of size 1, a rank-3 slice passes through, any other
rank raises `TypeError`; a `None` target is replaced by the integer 0;
`attrs`, `file_name` and `slice_num` are returned unchanged
(`to_tensor` and the device copy are value-preserving and modelled as
the identity). -/
def Prefetch2Device_call (inp : NpK h w) (target : Option RT2)
    (attrs : Attrs) (file_name : String) (slice_num : ℕ) :
    Except TErr (((c : ℕ) × KT c h w) × TargetOut × Attrs × String × ℕ) :=
  match inp with
  | .d2 t =>
      .ok ⟨⟨1, fun _ => t⟩,
        (match target with | none => .zero | some tt => .tens tt),
        attrs, file_name, slice_num⟩
  | .d3 c t =>
      .ok ⟨⟨c, t⟩,
        (match target with | none => .zero | some tt => .tens tt),
        attrs, file_name, slice_num⟩
  | .other _ => .error .shape

/-- Body of `TrainSliceTransform.__call__` (`slice_transforms.py` lines
66-82) on the rank-normalized slice: coil-wise magnitude labels from the
full k-space, masking with the file-name seed, channel conversion, then
the symmetric `(divisor - width % divisor) // 2` zero-pad on both sides
of the width axis. -/
def TrainSlice_core (mf2 : MaskFn2 w) (use_seed : Bool) (divisor : ℕ)
    (ks : KT c h w) (file_name : String) :
    PT c h (slicePadp divisor w + w + slicePadp divisor w) × RT c h w :=
  let labels := complex_abs (ifft2 ks)
  let seed := seedOf use_seed file_name
  let masked := applyMask (mf2 seed) ks
  let data := padW (slicePadp divisor w) (slicePadp divisor w)
    (k_slice_to_nchw masked)
  (data, labels)

/-- `TrainSliceTransform.__call__` (lines 39-82): assert the k-space
width is even, expand a rank-2 slice with a coil axis, raise `TypeError`
on any rank other than 2 or 3, then run the body. -/
def TrainSlice_call (mf2 : MaskFn2 w) (use_seed : Bool) (divisor : ℕ)
    (inp : NpK h w) (file_name : String) :
    Except TErr ((c : ℕ) ×
      (PT c h (slicePadp divisor w + w + slicePadp divisor w) × RT c h w)) :=
  if w % 2 ≠ 0 then .error .shape
  else
    match inp with
    | .d2 t => .ok ⟨1, TrainSlice_core mf2 use_seed divisor (fun _ => t) file_name⟩
    | .d3 c t => .ok ⟨c, TrainSlice_core mf2 use_seed divisor t file_name⟩
    | .other _ => .error .shape

/-- `SubmitSliceTransform.__call__` (lines 102-129): mask with the
always-on file-name seed when a mask function is configured (validation
set), pass the k-space through otherwise (test set), channel-convert and
apply the same symmetric width pad as the train transform. -/
def SubmitSlice_call (mfOpt : Option (MaskFn2 w)) (divisor : ℕ)
    (ks : KT c h w) (file_name : String) :
    PT c h (slicePadp divisor w + w + slicePadp divisor w) :=
  let masked := match mfOpt with
    | some mf => applyMask (mf (some (strSeed file_name))) ks
    | none => ks
  padW (slicePadp divisor w) (slicePadp divisor w) (k_slice_to_nchw masked)

/-! Concrete fixtures used by witnesses and counterexamples. -/

/-- A 1-coil 1×1 k-space slice with the single entry 2 + 0i. -/
def ksA : KT 1 1 1 := fun _ _ _ => (2, 0)

/-- A 1-coil 1×2 k-space slice, constant 1 + 0i. -/
def ksB : KT 1 1 2 := fun _ _ _ => (1, 0)

/-- A 1-coil 1×4 k-space slice, constant 1 + 0i. -/
def ksD : KT 1 1 4 := fun _ _ _ => (1, 0)

/-- A rank-5 batch of size 2 built from `ksA`. -/
def ks5 : Fin 2 → KT 1 1 1 := fun _ => ksA

/-- An all-pass unit mask function for width 1. -/
def mfA : MaskFn 1 := fun _ => (fun _ => 1, ⟨4⟩)

/-- The identity weighting function (the "no weighting" configuration). -/
def wfA : WeightFn := fun _ _ _ _ => fun _ _ => 1

/-- The zero ground-truth image (a `None` target after prefetch). -/
def gt0 : RT2 := fun _ _ => 0

/-- A multicoil `PreProcessWK` configuration with divisor 1. -/
def cfgA : WKCfg := ⟨"multicoil", true, 1⟩

/-- A multicoil `PreProcessWK` configuration with divisor 4. -/
def cfgW4 : WKCfg := ⟨"multicoil", true, 4⟩

/-- A 1-coil 1×6 k-space slice, constant 1 + 0i. -/
def ksE : KT 1 1 6 := fun _ _ _ => (1, 0)

/-- An all-pass unit mask function for width 6. -/
def mfB : MaskFn 6 := fun _ => (fun _ => 1, ⟨4⟩)

/-- The weighted masked k-space that `PreProcessWK.__call__` computes
as its working representation (lines 234-237): the masked k-space
multiplied by the weighting drawn from it. -/
def wkWorking (cfg : WKCfg) (mf : MaskFn w) (wf : WeightFn)
    (ks : KT c h w) (f : String) : KT c h w :=
  applyWeight (wf c h w (apply_info_mask ks mf (seedOf cfg.use_seed f)).1)
    (apply_info_mask ks mf (seedOf cfg.use_seed f)).1

/-- The weighted semi-k-space that `PreProcessWSK.__call__` computes as
its working representation (lines 407-415). -/
def wskWorking (cfg : WKCfg) (mf : MaskFn w) (wf : WeightFn)
    (ks : KT c h w) (f : String) : KT c h w :=
  applyWeight
    (wf c h w (ifft1H (apply_info_mask ks mf (seedOf cfg.use_seed f)).1))
    (ifft1H (apply_info_mask ks mf (seedOf cfg.use_seed f)).1)

/-! Helper lemmas shared by the claim theorems. -/

theorem normalize5_config_free (inp : KIn h w) :
    normalize5 inp ≠ Except.error TErr.config := by
  cases inp with
  | d3 t => simp [normalize5]
  | d4 c t => simp [normalize5]
  | d5 b c t =>
      by_cases hb : b = 1 <;> simp [normalize5, hb]
  | other r => simp [normalize5]

theorem mem_keyList_WK (t : WKTargets c h w) :
    "rss_targets" ∈ t.keyList ↔ t.rss_targets.isSome = true := by
  cases hrt : t.rss_targets <;> simp [WKTargets.keyList, hrt]

theorem mem_keyList_WSK (t : WSKTargets c h w) :
    "rss_targets" ∈ t.keyList ↔ t.rss_targets.isSome = true := by
  cases hrt : t.rss_targets <;> simp [WSKTargets.keyList, hrt]

theorem mem_keyList_CMG (t : CMGOut c h w kh kw ih iw) :
    "rss_targets" ∈ t.targetKeys ↔ t.rss_targets.isSome = true := by
  cases hrt : t.rss_targets <;> simp [CMGOut.targetKeys, hrt]

theorem mem_keyList_IMG (t : IMGOut c h w ih iw) :
    "rss_targets" ∈ t.targetKeys ↔ t.rss_targets.isSome = true := by
  cases hrt : t.rss_targets <;> simp [IMGOut.targetKeys, hrt]

theorem mem_keyList_KCC (t : KCCOut c h w r) :
    "rss_targets" ∈ t.targetKeys ↔ t.rss_targets.isSome = true := by
  cases hrt : t.rss_targets <;> simp [KCCOut.targetKeys, hrt]

theorem PreProcessWK_core_masks (cfg : WKCfg) (mf : MaskFn w)
    (wf : WeightFn) (ks : KT c h w) (tg : RT2) (ats : Attrs) (f : String)
    (n : ℕ) :
    (PreProcessWK_core cfg mf wf ks tg ats f n).extra.masks =
      (mf (seedOf cfg.use_seed f)).1 := rfl

/-! Claim theorems. -/

/-- C4: with `use_seed = True` the seed handed to the mask function is
exactly the tuple of character codes of `file_name` — so any two slices
of the same file, under the same configuration and mask function, are
masked with bit-identical seeds and receive the same mask — and with
`use_seed = False` the seed is `None` on every call. -/
theorem c4_seed_determinism :
    (∀ f : String, seedOf true f = some (f.data.map Char.toNat)) ∧
    (∀ f : String, seedOf false f = none) ∧
    (∀ (c h w : ℕ) (cfg : WKCfg) (mf : MaskFn w) (wf : WeightFn)
        (ks : KT c h w) (tg : RT2) (ats : Attrs) (f : String) (n : ℕ),
      (PreProcessWK_core cfg mf wf ks tg ats f n).extra.masks =
        (mf (seedOf cfg.use_seed f)).1) ∧
    (∀ (c h w : ℕ) (cfg : WKCfg) (mf : MaskFn w) (wf : WeightFn)
        (ks₁ ks₂ : KT c h w) (t₁ t₂ : RT2) (a₁ a₂ : Attrs) (f : String)
        (n₁ n₂ : ℕ),
      (PreProcessWK_core cfg mf wf ks₁ t₁ a₁ f n₁).extra.masks =
        (PreProcessWK_core cfg mf wf ks₂ t₂ a₂ f n₂).extra.masks) ∧
    (∀ (c h w : ℕ) (mf2 : MaskFn2 w) (us : Bool) (d : ℕ) (ks : KT c h w)
        (f : String),
      (TrainSlice_core mf2 us d ks f).1 =
        padW (slicePadp d w) (slicePadp d w)
          (k_slice_to_nchw (applyMask (mf2 (seedOf us f)) ks))) := by
  refine ⟨fun f => rfl, fun f => rfl,
    fun _ _ _ cfg mf wf ks tg ats f n =>
      PreProcessWK_core_masks cfg mf wf ks tg ats f n,
    fun _ _ _ cfg mf wf ks₁ ks₂ t₁ t₂ a₁ a₂ f n₁ n₂ =>
      (PreProcessWK_core_masks cfg mf wf ks₁ t₁ a₁ f n₁).trans
        (PreProcessWK_core_masks cfg mf wf ks₂ t₂ a₂ f n₂).symm,
    fun _ _ _ _ _ _ _ _ => rfl⟩

/-- C6: every strategy's shape normalization accepts rank-3, rank-4 and
rank-5 input, producing the canonical batch-1 layout; any other rank
raises a shape error; a rank-5 input with batch size ≠ 1 raises the
`NotImplementedError`-class signal; and when validation fails, each of
the six strategy calls returns that error and no partial targets
bundle. -/
theorem c6_shape_validation :
    (∀ (h w : ℕ) (t : ZMod h → ZMod w → CQ),
      normalize5 (KIn.d3 t) = .ok ⟨1, fun _ => t⟩) ∧
    (∀ (h w c : ℕ) (t : KT c h w),
      normalize5 (KIn.d4 c t) = .ok ⟨c, t⟩) ∧
    (∀ (h w c : ℕ) (t : Fin 1 → KT c h w),
      normalize5 (KIn.d5 1 c t) = .ok ⟨c, t 0⟩) ∧
    (∀ (h w b c : ℕ) (t : Fin b → KT c h w), b ≠ 1 →
      normalize5 (KIn.d5 b c t) = .error .notImpl) ∧
    (∀ (h w r : ℕ), normalize5 (KIn.other r : KIn h w) = .error .shape) ∧
    (∀ (h w : ℕ) (cfg : WKCfg) (mf : MaskFn w) (wf : WeightFn)
        (inp : KIn h w) (tg : RT2) (ats : Attrs) (f : String) (n : ℕ)
        (e : TErr), normalize5 inp = .error e →
      PreProcessWK_call cfg mf wf inp tg ats f n = .error e ∧
      PreProcessWSK_call cfg mf wf inp tg ats f n = .error e) ∧
    (∀ (h w : ℕ) (cfg : CMGCfg) (mf : MaskFn w) (lr ud : Bool)
        (inp : KIn h w) (tg : RT2) (ats : Attrs) (f : String) (n : ℕ)
        (e : TErr), normalize5 inp = .error e →
      PreProcessCMG_call cfg mf lr ud inp tg ats f n = .error e ∧
      PreProcessCMGIMG_call cfg mf lr ud inp tg ats f n = .error e ∧
      PreProcessIMG_call cfg mf lr ud inp tg ats f n = .error e) ∧
    (∀ (h w : ℕ) (cfg : KCCCfg) (mf : MaskFn w) (wf : WeightFn)
        (inp : KIn h w) (tg : RT2) (ats : Attrs) (f : String) (n : ℕ)
        (e : TErr), normalize5 inp = .error e →
      PreProcessWSemiKCC_call cfg mf wf inp tg ats f n = .error e) := by
  refine ⟨fun _ _ _ => rfl, fun _ _ _ _ => rfl, fun _ _ _ _ => rfl,
    ?_, fun _ _ _ => rfl, ?_, ?_, ?_⟩
  · intro h w b c t hb
    simp [normalize5, hb]
  · intro h w cfg mf wf inp tg ats f n e he
    constructor
    · unfold PreProcessWK_call
      rw [he]
    · unfold PreProcessWSK_call
      rw [he]
  · intro h w cfg mf lr ud inp tg ats f n e he
    refine ⟨?_, ?_, ?_⟩
    · unfold PreProcessCMG_call
      rw [he]
    · unfold PreProcessCMGIMG_call
      rw [he]
    · unfold PreProcessIMG_call
      rw [he]
  · intro h w cfg mf wf inp tg ats f n e he
    unfold PreProcessWSemiKCC_call
    rw [he]

/-- C6 witness: a rank-5 batch of size 2 is rejected with the
`NotImplementedError`-class signal. -/
theorem c6_shape_validation_witness :
    (2 ≠ 1) ∧ normalize5 (KIn.d5 2 1 ks5) = .error .notImpl :=
  ⟨by decide, c6_shape_validation.2.2.2.1 1 1 2 1 ks5 (by decide)⟩

theorem PreProcessWK_init_eq (mc wc : Bool) (ch : String) (us : Bool)
    (dv : ℕ) :
    PreProcessWK_init mc wc ch us dv =
      if mc = true ∧ wc = true ∧ (ch = "singlecoil" ∨ ch = "multicoil")
      then .ok ⟨ch, us, dv⟩ else .error .config := by
  unfold PreProcessWK_init
  cases mc <;> cases wc <;> by_cases h1 : ch = "singlecoil" <;>
    by_cases h2 : ch = "multicoil" <;> simp [h1, h2]

theorem PreProcessWSK_init_eq (mc wc : Bool) (ch : String) (us : Bool)
    (dv : ℕ) :
    PreProcessWSK_init mc wc ch us dv =
      if mc = true ∧ wc = true ∧ (ch = "singlecoil" ∨ ch = "multicoil")
      then .ok ⟨ch, us, dv⟩ else .error .config := by
  unfold PreProcessWSK_init
  cases mc <;> cases wc <;> by_cases h1 : ch = "singlecoil" <;>
    by_cases h2 : ch = "multicoil" <;> simp [h1, h2]

theorem PreProcessCMG_init_eq (mc : Bool) (ch : String) (ad us cc : Bool)
    (res : ℕ) :
    PreProcessCMG_init mc ch ad us cc res =
      if mc = true ∧ (ch = "singlecoil" ∨ ch = "multicoil")
      then .ok ⟨ch, ad, us, cc, res⟩ else .error .config := by
  unfold PreProcessCMG_init
  cases mc <;> by_cases h1 : ch = "singlecoil" <;>
    by_cases h2 : ch = "multicoil" <;> simp [h1, h2]

theorem PreProcessCMGIMG_init_eq (mc : Bool) (ch : String) (ad us cc : Bool)
    (res : ℕ) :
    PreProcessCMGIMG_init mc ch ad us cc res =
      if mc = true ∧ (ch = "singlecoil" ∨ ch = "multicoil")
      then .ok ⟨ch, ad, us, cc, res⟩ else .error .config := by
  unfold PreProcessCMGIMG_init
  cases mc <;> by_cases h1 : ch = "singlecoil" <;>
    by_cases h2 : ch = "multicoil" <;> simp [h1, h2]

theorem PreProcessIMG_init_eq (mc : Bool) (ch : String) (ad us cc : Bool)
    (res : ℕ) :
    PreProcessIMG_init mc ch ad us cc res =
      if mc = true ∧ (ch = "singlecoil" ∨ ch = "multicoil")
      then .ok ⟨ch, ad, us, cc, res⟩ else .error .config := by
  unfold PreProcessIMG_init
  cases mc <;> by_cases h1 : ch = "singlecoil" <;>
    by_cases h2 : ch = "multicoil" <;> simp [h1, h2]

theorem PreProcessWSemiKCC_init_eq (mc wc : Bool) (ch : String) (res : ℕ)
    (us : Bool) :
    PreProcessWSemiKCC_init mc wc ch res us =
      if mc = true ∧ wc = true ∧ (ch = "singlecoil" ∨ ch = "multicoil")
      then .ok ⟨ch, res, us⟩ else .error .config := by
  unfold PreProcessWSemiKCC_init
  cases mc <;> cases wc <;> by_cases h1 : ch = "singlecoil" <;>
    by_cases h2 : ch = "multicoil" <;> simp [h1, h2]

/-- C9: constructing any forward transform strategy with a challenge
string other than "singlecoil"/"multicoil", or with a non-callable mask
or weight function, fails at construction time, and a successfully
constructed configuration never produces a configuration error during a
later call (the call-time errors are only shape / batch-size errors). -/
theorem c9_construction_validation :
    (∀ (mc wc : Bool) (ch : String) (us : Bool) (dv : ℕ),
      (¬(ch = "singlecoil" ∨ ch = "multicoil") ∨ mc = false ∨ wc = false) →
      PreProcessWK_init mc wc ch us dv = .error .config ∧
      PreProcessWSK_init mc wc ch us dv = .error .config) ∧
    (∀ (ch : String) (us : Bool) (dv : ℕ),
      (ch = "singlecoil" ∨ ch = "multicoil") →
      PreProcessWK_init true true ch us dv = .ok ⟨ch, us, dv⟩ ∧
      PreProcessWSK_init true true ch us dv = .ok ⟨ch, us, dv⟩) ∧
    (∀ (mc : Bool) (ch : String) (ad us cc : Bool) (res : ℕ),
      (¬(ch = "singlecoil" ∨ ch = "multicoil") ∨ mc = false) →
      PreProcessCMG_init mc ch ad us cc res = .error .config ∧
      PreProcessCMGIMG_init mc ch ad us cc res = .error .config ∧
      PreProcessIMG_init mc ch ad us cc res = .error .config) ∧
    (∀ (ch : String) (ad us cc : Bool) (res : ℕ),
      (ch = "singlecoil" ∨ ch = "multicoil") →
      PreProcessCMG_init true ch ad us cc res = .ok ⟨ch, ad, us, cc, res⟩ ∧
      PreProcessCMGIMG_init true ch ad us cc res = .ok ⟨ch, ad, us, cc, res⟩ ∧
      PreProcessIMG_init true ch ad us cc res = .ok ⟨ch, ad, us, cc, res⟩) ∧
    (∀ (mc wc : Bool) (ch : String) (res : ℕ) (us : Bool),
      (¬(ch = "singlecoil" ∨ ch = "multicoil") ∨ mc = false ∨ wc = false) →
      PreProcessWSemiKCC_init mc wc ch res us = .error .config) ∧
    (∀ (ch : String) (res : ℕ) (us : Bool),
      (ch = "singlecoil" ∨ ch = "multicoil") →
      PreProcessWSemiKCC_init true true ch res us = .ok ⟨ch, res, us⟩) ∧
    (∀ (h w : ℕ) (cfg : WKCfg) (mf : MaskFn w) (wf : WeightFn)
        (inp : KIn h w) (tg : RT2) (ats : Attrs) (f : String) (n : ℕ),
      PreProcessWK_call cfg mf wf inp tg ats f n ≠ .error .config ∧
      PreProcessWSK_call cfg mf wf inp tg ats f n ≠ .error .config) ∧
    (∀ (h w : ℕ) (cfg : CMGCfg) (mf : MaskFn w) (lr ud : Bool)
        (inp : KIn h w) (tg : RT2) (ats : Attrs) (f : String) (n : ℕ),
      PreProcessCMG_call cfg mf lr ud inp tg ats f n ≠ .error .config ∧
      PreProcessCMGIMG_call cfg mf lr ud inp tg ats f n ≠ .error .config ∧
      PreProcessIMG_call cfg mf lr ud inp tg ats f n ≠ .error .config) ∧
    (∀ (h w : ℕ) (cfg : KCCCfg) (mf : MaskFn w) (wf : WeightFn)
        (inp : KIn h w) (tg : RT2) (ats : Attrs) (f : String) (n : ℕ),
      PreProcessWSemiKCC_call cfg mf wf inp tg ats f n ≠ .error .config) := by
  have hbadcond : ∀ (mc wc : Bool) (ch : String),
      (¬(ch = "singlecoil" ∨ ch = "multicoil") ∨ mc = false ∨ wc = false) →
      ¬(mc = true ∧ wc = true ∧ (ch = "singlecoil" ∨ ch = "multicoil")) := by
    intro mc wc ch hbad hc
    rcases hbad with h | h | h
    · exact h hc.2.2
    · rw [h] at hc; exact Bool.false_ne_true hc.1
    · rw [h] at hc; exact Bool.false_ne_true hc.2.1
  refine ⟨?_, ?_, ?_, ?_, ?_, ?_, ?_, ?_, ?_⟩
  · intro mc wc ch us dv hbad
    constructor
    · rw [PreProcessWK_init_eq, if_neg (hbadcond mc wc ch hbad)]
    · rw [PreProcessWSK_init_eq, if_neg (hbadcond mc wc ch hbad)]
  · intro ch us dv hok
    constructor
    · rw [PreProcessWK_init_eq, if_pos ⟨rfl, rfl, hok⟩]
    · rw [PreProcessWSK_init_eq, if_pos ⟨rfl, rfl, hok⟩]
  · intro mc ch ad us cc res hbad
    have hnc : ¬(mc = true ∧ (ch = "singlecoil" ∨ ch = "multicoil")) := by
      intro hc
      rcases hbad with h | h
      · exact h hc.2
      · rw [h] at hc; exact Bool.false_ne_true hc.1
    refine ⟨?_, ?_, ?_⟩
    · rw [PreProcessCMG_init_eq, if_neg hnc]
    · rw [PreProcessCMGIMG_init_eq, if_neg hnc]
    · rw [PreProcessIMG_init_eq, if_neg hnc]
  · intro ch ad us cc res hok
    refine ⟨?_, ?_, ?_⟩
    · rw [PreProcessCMG_init_eq, if_pos ⟨rfl, hok⟩]
    · rw [PreProcessCMGIMG_init_eq, if_pos ⟨rfl, hok⟩]
    · rw [PreProcessIMG_init_eq, if_pos ⟨rfl, hok⟩]
  · intro mc wc ch res us hbad
    rw [PreProcessWSemiKCC_init_eq, if_neg (hbadcond mc wc ch hbad)]
  · intro ch res us hok
    rw [PreProcessWSemiKCC_init_eq, if_pos ⟨rfl, rfl, hok⟩]
  · intro h w cfg mf wf inp tg ats f n
    constructor
    · cases hn : normalize5 inp with
      | error e =>
          have he : e ≠ .config := fun hc => normalize5_config_free inp (hc ▸ hn)
          unfold PreProcessWK_call
          rw [hn]
          exact fun hcon => he (Except.error.inj hcon)
      | ok v =>
          obtain ⟨c, ks⟩ := v
          unfold PreProcessWK_call
          rw [hn]
          exact fun hcon => Except.noConfusion hcon
    · cases hn : normalize5 inp with
      | error e =>
          have he : e ≠ .config := fun hc => normalize5_config_free inp (hc ▸ hn)
          unfold PreProcessWSK_call
          rw [hn]
          exact fun hcon => he (Except.error.inj hcon)
      | ok v =>
          obtain ⟨c, ks⟩ := v
          unfold PreProcessWSK_call
          rw [hn]
          exact fun hcon => Except.noConfusion hcon
  · intro h w cfg mf lr ud inp tg ats f n
    refine ⟨?_, ?_, ?_⟩
    · cases hn : normalize5 inp with
      | error e =>
          have he : e ≠ .config := fun hc => normalize5_config_free inp (hc ▸ hn)
          unfold PreProcessCMG_call
          rw [hn]
          exact fun hcon => he (Except.error.inj hcon)
      | ok v =>
          obtain ⟨c, ks⟩ := v
          unfold PreProcessCMG_call
          rw [hn]
          exact fun hcon => Except.noConfusion hcon
    · cases hn : normalize5 inp with
      | error e =>
          have he : e ≠ .config := fun hc => normalize5_config_free inp (hc ▸ hn)
          unfold PreProcessCMGIMG_call
          rw [hn]
          exact fun hcon => he (Except.error.inj hcon)
      | ok v =>
          obtain ⟨c, ks⟩ := v
          unfold PreProcessCMGIMG_call
          rw [hn]
          exact fun hcon => Except.noConfusion hcon
    · cases hn : normalize5 inp with
      | error e =>
          have he : e ≠ .config := fun hc => normalize5_config_free inp (hc ▸ hn)
          unfold PreProcessIMG_call
          rw [hn]
          exact fun hcon => he (Except.error.inj hcon)
      | ok v =>
          obtain ⟨c, ks⟩ := v
          unfold PreProcessIMG_call
          rw [hn]
          exact fun hcon => Except.noConfusion hcon
  · intro h w cfg mf wf inp tg ats f n
    cases hn : normalize5 inp with
    | error e =>
        have he : e ≠ .config := fun hc => normalize5_config_free inp (hc ▸ hn)
        unfold PreProcessWSemiKCC_call
        rw [hn]
        exact fun hcon => he (Except.error.inj hcon)
    | ok v =>
        obtain ⟨c, ks⟩ := v
        unfold PreProcessWSemiKCC_call
        rw [hn]
        exact fun hcon => Except.noConfusion hcon

/-- C9 witness: a non-callable mask function is rejected at construction
time with a configuration error. -/
theorem c9_construction_validation_witness :
    (¬("multicoil" = "singlecoil" ∨ "multicoil" = "multicoil") ∨
      false = false ∨ true = false) ∧
    PreProcessWK_init false true "multicoil" true 2 = .error .config :=
  ⟨by decide,
    (c9_construction_validation.1 false true "multicoil" true 2 (by decide)).1⟩

/-- C10: `Prefetch2Device` replaces a `None` target by the integer 0, a
rank-2 k-space slice gains a leading coil axis of size 1, a rank-3
slice passes through with rank unchanged, any other rank raises, and
`attrs`, `file_name` and `slice_num` are returned unchanged. -/
theorem c10_prefetch :
    (∀ (h w : ℕ) (t : ZMod h → ZMod w → CQ) (a : Attrs) (f : String) (n : ℕ),
      Prefetch2Device_call (NpK.d2 t) none a f n =
        .ok ⟨⟨1, fun _ => t⟩, .zero, a, f, n⟩) ∧
    (∀ (h w : ℕ) (t : ZMod h → ZMod w → CQ) (tg : RT2) (a : Attrs)
        (f : String) (n : ℕ),
      Prefetch2Device_call (NpK.d2 t) (some tg) a f n =
        .ok ⟨⟨1, fun _ => t⟩, .tens tg, a, f, n⟩) ∧
    (∀ (h w c : ℕ) (t : KT c h w) (a : Attrs) (f : String) (n : ℕ),
      Prefetch2Device_call (NpK.d3 c t) none a f n =
        .ok ⟨⟨c, t⟩, .zero, a, f, n⟩) ∧
    (∀ (h w c : ℕ) (t : KT c h w) (tg : RT2) (a : Attrs) (f : String)
        (n : ℕ),
      Prefetch2Device_call (NpK.d3 c t) (some tg) a f n =
        .ok ⟨⟨c, t⟩, .tens tg, a, f, n⟩) ∧
    (∀ (h w r : ℕ) (tg : Option RT2) (a : Attrs) (f : String) (n : ℕ),
      Prefetch2Device_call (NpK.other r : NpK h w) tg a f n =
        .error .shape) := by
  refine ⟨fun _ _ _ _ _ _ => rfl, fun _ _ _ _ _ _ _ => rfl,
    fun _ _ _ _ _ _ _ => rfl, fun _ _ _ _ _ _ _ _ => rfl,
    fun _ _ _ _ _ _ _ => rfl⟩

/-- C2 counterexample: the claim fails for the slice transforms it
cites.  At divisor 4 and width 4, `SubmitSliceTransform` pads 4 columns
in total although `(4 - 4 % 4) % 4 = 0`, inserting zeros at the left
edge of an already-divisible tensor; and at divisor 3 and width 2 its
padded width is not divisible by the divisor. -/
theorem c2_counterexample :
    (4 - 4 % 4) % 4 = 0 ∧ slicePadp 4 4 + slicePadp 4 4 = 4 ∧
    SubmitSlice_call (Option.none) 4 ksD "f" 0 0 0 ⟨0, by decide⟩ = 0 ∧
    k_slice_to_nchw ksD 0 0 0 0 = 1 ∧
    (2 + (slicePadp 3 2 + slicePadp 3 2)) % 3 ≠ 0 := by decide

/-- C2 (amended): `PreProcessWK`/`PreProcessWSK` pad only the trailing
width axis with zeros, with total padding `(d - w mod d) mod d`, the
extra column on the right side when that total is odd, and a final
width exactly divisible by `d`; `TrainSliceTransform` and
`SubmitSliceTransform` instead pad `(d - w mod d) / 2` columns on each
side, which guarantees divisibility only when `d - w mod d` is even. -/
theorem c2_padding_amended (d w0 : ℕ) (hd : 0 < d) (c h : ℕ)
    (t : NT c h w0) (a : Fin c) (p : Fin 2) (i : ZMod h)
    (k : Fin (wkPadL d w0 + w0 + wkPadR d w0)) (cfg : WKCfg)
    (mf : MaskFn w0) (wf : WeightFn) (ks : KT c h w0) (tg : RT2)
    (ats : Attrs) (f : String) (n : ℕ) (ksc : KT c h w0) :
    wkPadL d w0 + wkPadR d w0 = (d - w0 % d) % d ∧
    (wkPadR d w0 = wkPadL d w0 ∨ wkPadR d w0 = wkPadL d w0 + 1) ∧
    (w0 + (wkPadL d w0 + wkPadR d w0)) % d = 0 ∧
    (k.val < wkPadL d w0 → padW (wkPadL d w0) (wkPadR d w0) t a p i k = 0) ∧
    (wkPadL d w0 + w0 ≤ k.val →
      padW (wkPadL d w0) (wkPadR d w0) t a p i k = 0) ∧
    (wkPadL d w0 ≤ k.val → k.val < wkPadL d w0 + w0 →
      padW (wkPadL d w0) (wkPadR d w0) t a p i k =
        t a p i (((k.val - wkPadL d w0 : ℕ)) : ZMod w0)) ∧
    (PreProcessWK_core cfg mf wf ks tg ats f n).inputs =
      padW (wkPadL cfg.divisor w0) (wkPadR cfg.divisor w0)
        (kspace_to_nchw (smulK
          (1 / tstd (applyWeight
            (wf c h w0 (apply_info_mask ks mf (seedOf cfg.use_seed f)).1)
            (apply_info_mask ks mf (seedOf cfg.use_seed f)).1))
          (applyWeight
            (wf c h w0 (apply_info_mask ks mf (seedOf cfg.use_seed f)).1)
            (apply_info_mask ks mf (seedOf cfg.use_seed f)).1))) ∧
    SubmitSlice_call (Option.none) d ksc f =
      padW (slicePadp d w0) (slicePadp d w0) (k_slice_to_nchw ksc) ∧
    slicePadp d w0 + slicePadp d w0 = 2 * ((d - w0 % d) / 2) ∧
    ((d - w0 % d) % 2 = 0 →
      (w0 + (slicePadp d w0 + slicePadp d w0)) % d = 0) := by
  have hmd : w0 % d < d := Nat.mod_lt _ hd
  have key : w0 + (d - w0 % d) = d * (w0 / d + 1) := by
    have h1 : d * (w0 / d) + w0 % d = w0 := Nat.div_add_mod w0 d
    have h2 : w0 % d ≤ d := le_of_lt hmd
    calc w0 + (d - w0 % d)
        = d * (w0 / d) + w0 % d + (d - w0 % d) := by rw [h1]
      _ = d * (w0 / d) + (w0 % d + (d - w0 % d)) := by rw [Nat.add_assoc]
      _ = d * (w0 / d) + d := by rw [Nat.add_sub_cancel' h2]
      _ = d * (w0 / d + 1) := by rw [Nat.mul_succ]
  refine ⟨?_, ?_, ?_, ?_, ?_, ?_, rfl, rfl, ?_, ?_⟩
  · by_cases hm : 0 < w0 % d
    · unfold wkPadL wkPadR
      rw [if_pos hm, if_pos hm,
        Nat.mod_eq_of_lt (show d - w0 % d < d by omega)]
      omega
    · unfold wkPadL wkPadR
      rw [if_neg hm, if_neg hm]
      have hz : w0 % d = 0 := by omega
      rw [hz, Nat.sub_zero, Nat.mod_self]
  · by_cases hm : 0 < w0 % d
    · unfold wkPadL wkPadR
      rw [if_pos hm, if_pos hm]
      omega
    · unfold wkPadL wkPadR
      rw [if_neg hm, if_neg hm]
      left
      rfl
  · by_cases hm : 0 < w0 % d
    · unfold wkPadL wkPadR
      rw [if_pos hm, if_pos hm]
      have htot : (d - w0 % d) / 2 + (1 + (d - w0 % d)) / 2 = d - w0 % d := by
        omega
      rw [htot, key]
      exact Nat.mul_mod_right d _
    · unfold wkPadL wkPadR
      rw [if_neg hm, if_neg hm]
      have hz : w0 % d = 0 := by omega
      rw [Nat.add_zero]
      exact hz
  · intro hk
    simp only [padW]
    rw [if_pos hk]
  · intro hk
    simp only [padW]
    rw [if_neg (by omega), if_neg (by omega)]
  · intro hk1 hk2
    simp only [padW]
    rw [if_neg (by omega), if_pos (by omega)]
  · unfold slicePadp
    omega
  · intro heven
    have htot : slicePadp d w0 + slicePadp d w0 = d - w0 % d := by
      unfold slicePadp
      omega
    rw [htot, key]
    exact Nat.mul_mod_right d _

/-- C2 witness: at divisor 4 and width 6 the `PreProcessWK`-style total
padding equals `(4 - 6 % 4) % 4 = 2`. -/
theorem c2_padding_amended_witness :
    0 < 4 ∧ wkPadL 4 6 + wkPadR 4 6 = (4 - 6 % 4) % 4 :=
  ⟨by decide,
    (c2_padding_amended 4 6 (by decide) 1 1 (fun _ _ _ _ => 0) 0 0 0
      ⟨0, by decide⟩ cfgW4 mfB wfA ksE gt0 [] "f" 0 ksE).1⟩

/-- C3 counterexample: at divisor 2 and width 2 (already divisible),
`SubmitSliceTransform` pads one zero column on each side instead of
applying a zero-width pad, so the tensor is not returned unchanged: the
padded output has a fresh zero at its left edge while every channel
entry of the unpadded tensor is 1. -/
theorem c3_counterexample :
    slicePadp 2 2 = 1 ∧
    SubmitSlice_call (Option.none) 2 ksB "f" 0 0 0 ⟨0, by decide⟩ = 0 ∧
    k_slice_to_nchw ksB 0 0 0 0 = 1 := by decide

/-- C3 (amended): when the width is already divisible by the divisor,
the padding step of `PreProcessWK` and `PreProcessWSK` is the identity
(zero-width pad on both sides, all values preserved); the slice
transforms `TrainSliceTransform` and `SubmitSliceTransform`, however,
pad `divisor / 2` columns on each side in that case, which is a
zero-width pad only for divisor 1. -/
theorem c3_pad_identity_amended (d w0 : ℕ) (hd : 0 < d)
    (hdvd : w0 % d = 0) (c h : ℕ) (t : NT c h w0) (a : Fin c) (p : Fin 2)
    (i : ZMod h) (k : Fin (wkPadL d w0 + w0 + wkPadR d w0)) :
    wkPadL d w0 = 0 ∧ wkPadR d w0 = 0 ∧
    padW (wkPadL d w0) (wkPadR d w0) t a p i k =
      t a p i ((k.val : ℕ) : ZMod w0) ∧
    slicePadp d w0 = d / 2 ∧
    (d = 1 → slicePadp d w0 = 0) := by
  have hL : wkPadL d w0 = 0 := by
    unfold wkPadL
    rw [if_neg (by omega)]
  have hR : wkPadR d w0 = 0 := by
    unfold wkPadR
    rw [if_neg (by omega)]
  refine ⟨hL, hR, ?_, ?_, ?_⟩
  · simp only [padW]
    rw [if_neg (show ¬(k.val < wkPadL d w0) by omega),
      if_pos (show k.val < wkPadL d w0 + w0 by have := k.isLt; omega),
      show (k.val - wkPadL d w0 : ℕ) = k.val by omega]
  · unfold slicePadp
    rw [hdvd, Nat.sub_zero]
  · intro h1
    subst h1
    simp only [slicePadp]
    omega

/-- C3 witness: at divisor 2 and width 4 the `PreProcessWK` pad amounts
are zero on both sides. -/
theorem c3_pad_identity_amended_witness :
    0 < 2 ∧ 4 % 2 = 0 ∧ wkPadL 2 4 = 0 :=
  ⟨by decide, by decide,
    (c3_pad_identity_amended 2 4 (by decide) (by decide) 1 1
      (fun _ _ _ _ => 0) 0 0 0 ⟨0, by decide⟩).1⟩

/-- C1 counterexample: on a concrete slice, `PreProcessWK` computes the
scale factor 2 and applies its reciprocal to the k-space target
(2 ↦ 1), but the `img_inputs` entry of the targets bundle keeps the
unscaled magnitude value 2, which is neither the reciprocal-scaled
value 1 nor the scaled value 4 — so not every representation in the
bundle receives the factor. -/
theorem c1_counterexample :
    (PreProcessWK_core cfgA mfA wfA ksA gt0 [] "f" 0).extra.k_scales = 2 ∧
    (PreProcessWK_core cfgA mfA wfA ksA gt0 [] "f" 0).targets.kspace_targets
      0 0 0 = (1, 0) ∧
    (PreProcessWK_core cfgA mfA wfA ksA gt0 [] "f" 0).targets.img_inputs
      0 0 0 = 2 ∧
    ((2 : ℚ) ≠ (1 / 2) * 2 ∧ (2 : ℚ) ≠ 2 * 2) := by
  refine ⟨?_, ?_, ?_, by norm_num⟩ <;>
    simp [PreProcessWK_core, tstd, cabs, csmul, applyWeight, apply_info_mask,
      applyMask, wfA, mfA, ksA, cfgA, seedOf, strSeed, smulK, complex_abs,
      ifft2, Fin.sum_univ_one]

/-- C1 (amended): in `PreProcessWK` one scale factor — the std of the
weighted masked k-space — is computed per slice, and its reciprocal is
applied identically to the returned input, the k-space target, the
complex-image target, the magnitude-image target, and the rss target
when present; the `img_inputs` entry, however, is stored unscaled.  In
`PreProcessWSK` the reciprocal of the semi-k-space scale is likewise
applied to the input and to the k-space, semi-k-space, complex-image
and magnitude-image targets, but both the `img_inputs` entry and the
rss target are stored unscaled. -/
theorem c1_scale_consistency_amended (c h w : ℕ) (cfg : WKCfg)
    (mf : MaskFn w) (wf : WeightFn) (ks : KT c h w) (tg : RT2)
    (ats : Attrs) (f : String) (n : ℕ) :
    (PreProcessWK_core cfg mf wf ks tg ats f n).extra.k_scales =
      tstd (wkWorking cfg mf wf ks f) ∧
    (PreProcessWK_core cfg mf wf ks tg ats f n).inputs =
      padW (wkPadL cfg.divisor w) (wkPadR cfg.divisor w)
        (kspace_to_nchw (smulK (1 / tstd (wkWorking cfg mf wf ks f))
          (wkWorking cfg mf wf ks f))) ∧
    (PreProcessWK_core cfg mf wf ks tg ats f n).targets.kspace_targets =
      smulK (1 / tstd (wkWorking cfg mf wf ks f)) ks ∧
    (PreProcessWK_core cfg mf wf ks tg ats f n).targets.cmg_targets =
      smulK (1 / tstd (wkWorking cfg mf wf ks f)) (ifft2 ks) ∧
    (PreProcessWK_core cfg mf wf ks tg ats f n).targets.img_targets =
      smulR (1 / tstd (wkWorking cfg mf wf ks f)) (complex_abs (ifft2 ks)) ∧
    (PreProcessWK_core cfg mf wf ks tg ats f n).targets.rss_targets =
      (if c = 15 then
        some (smulR2 (1 / tstd (wkWorking cfg mf wf ks f)) tg) else none) ∧
    (PreProcessWK_core cfg mf wf ks tg ats f n).targets.img_inputs =
      complex_abs (ifft2 (wkWorking cfg mf wf ks f)) ∧
    (PreProcessWSK_core cfg mf wf ks tg ats f n).extra.sk_scales =
      tstd (wskWorking cfg mf wf ks f) ∧
    (PreProcessWSK_core cfg mf wf ks tg ats f n).inputs =
      padW (wkPadL cfg.divisor w) (wkPadR cfg.divisor w)
        (kspace_to_nchw (smulK (1 / tstd (wskWorking cfg mf wf ks f))
          (wskWorking cfg mf wf ks f))) ∧
    (PreProcessWSK_core cfg mf wf ks tg ats f n).targets.kspace_targets =
      smulK (1 / tstd (wskWorking cfg mf wf ks f)) ks ∧
    (PreProcessWSK_core cfg mf wf ks tg ats f n).targets.semi_kspace_targets =
      smulK (1 / tstd (wskWorking cfg mf wf ks f)) (ifft1H ks) ∧
    (PreProcessWSK_core cfg mf wf ks tg ats f n).targets.cmg_targets =
      smulK (1 / tstd (wskWorking cfg mf wf ks f)) (ifft2 ks) ∧
    (PreProcessWSK_core cfg mf wf ks tg ats f n).targets.img_targets =
      smulR (1 / tstd (wskWorking cfg mf wf ks f)) (complex_abs (ifft2 ks)) ∧
    (PreProcessWSK_core cfg mf wf ks tg ats f n).targets.rss_targets =
      (if c = 15 then some tg else none) ∧
    (PreProcessWSK_core cfg mf wf ks tg ats f n).targets.img_inputs =
      complex_abs (ifft2 (apply_info_mask ks mf (seedOf cfg.use_seed f)).1) := by
  have hq1 : (0 : ℚ) ≤ 1 / tstd (wkWorking cfg mf wf ks f) :=
    one_div_nonneg.mpr (tstd_nonneg _)
  have hq2 : (0 : ℚ) ≤ 1 / tstd (wskWorking cfg mf wf ks f) :=
    one_div_nonneg.mpr (tstd_nonneg _)
  refine ⟨rfl, rfl, rfl, rfl, ?_, rfl, rfl, rfl, rfl, rfl, rfl, rfl, ?_,
    rfl, rfl⟩
  · calc (PreProcessWK_core cfg mf wf ks tg ats f n).targets.img_targets
        = complex_abs (smulK (1 / tstd (wkWorking cfg mf wf ks f))
            (ifft2 ks)) := rfl
      _ = smulR (1 / tstd (wkWorking cfg mf wf ks f))
            (complex_abs (ifft2 ks)) :=
          complex_abs_smulK _ hq1 _
  · calc (PreProcessWSK_core cfg mf wf ks tg ats f n).targets.img_targets
        = complex_abs (smulK (1 / tstd (wskWorking cfg mf wf ks f))
            (ifft2 ks)) := rfl
      _ = smulR (1 / tstd (wskWorking cfg mf wf ks f))
            (complex_abs (ifft2 ks)) :=
          complex_abs_smulK _ hq2 _

/-- C5 counterexample: after a concrete `PreProcessWK` call the
caller's k-space storage holds 1 + 0i where the argument held 2 + 0i:
the in-place `kspace_target *= k_scaling` mutates the argument. -/
theorem c5_counterexample :
    (PreProcessWK_core cfgA mfA wfA ksA gt0 [] "f" 0).kspace_after 0 0 0 =
      (1, 0) ∧
    ksA 0 0 0 = (2, 0) ∧ ((1, 0) : CQ) ≠ ((2, 0) : CQ) := by
  refine ⟨?_, by simp [ksA], by norm_num [Prod.ext_iff]⟩
  simp [PreProcessWK_core, tstd, cabs, csmul, applyWeight, apply_info_mask,
    applyMask, wfA, mfA, ksA, cfgA, seedOf, strSeed, smulK, Fin.sum_univ_one]

/-- C5 (amended): the ground-truth target argument is never mutated in
place by any strategy, but the k-space argument's storage is scaled in
place by the reciprocal scale factor in `PreProcessWK`,
`PreProcessWSK`, `PreProcessCMG` and `PreProcessCMGIMG`; only
`PreProcessIMG` and `PreProcessWSemiKCC` leave it unchanged. -/
theorem c5_mutation_amended (c h w : ℕ) (cfg : WKCfg) (kcfg : KCCCfg)
    (ch : String) (ad us cc : Bool) (res : ℕ) (mf : MaskFn w)
    (wf : WeightFn) (lr ud : Bool) (ks : KT c h w) (tg : RT2)
    (ats : Attrs) (f : String) (n : ℕ) :
    (PreProcessWK_core cfg mf wf ks tg ats f n).kspace_after =
      smulK (1 / tstd (wkWorking cfg mf wf ks f)) ks ∧
    (PreProcessWK_core cfg mf wf ks tg ats f n).target_after = tg ∧
    (PreProcessWSK_core cfg mf wf ks tg ats f n).kspace_after =
      smulK (1 / tstd (wskWorking cfg mf wf ks f)) ks ∧
    (PreProcessWSK_core cfg mf wf ks tg ats f n).target_after = tg ∧
    (PreProcessCMG_core ch ad us cc res mf lr ud ks tg ats f n).kspace_after =
      smulK (1 / tstd (cropIf cc res
        (ifft2 (apply_info_mask ks mf (seedOf us f)).1))) ks ∧
    (PreProcessCMG_core ch ad us cc res mf lr ud ks tg ats f n).target_after
      = tg ∧
    (PreProcessCMGIMG_core ch ad us cc res mf lr ud ks tg ats f n).kspace_after =
      smulK (1 / tstd (cropIf cc res
        (ifft2 (apply_info_mask ks mf (seedOf us f)).1))) ks ∧
    (PreProcessCMGIMG_core ch ad us cc res mf lr ud ks tg ats f n).target_after
      = tg ∧
    (PreProcessIMG_core ch ad us cc res mf lr ud ks tg ats f n).kspace_after
      = ks ∧
    (PreProcessIMG_core ch ad us cc res mf lr ud ks tg ats f n).target_after
      = tg ∧
    (PreProcessWSemiKCC_core kcfg mf wf ks tg ats f n).kspace_after = ks ∧
    (PreProcessWSemiKCC_core kcfg mf wf ks tg ats f n).target_after = tg := by
  refine ⟨rfl, rfl, rfl, rfl, ?_, ?_, ?_, ?_, rfl, rfl, rfl, rfl⟩
  · cases ad <;> rfl
  · cases ad <;> rfl
  · cases ad <;> cases lr <;> cases ud <;> rfl
  · cases ad <;> cases lr <;> cases ud <;> rfl

/-- C7: whenever data augmentation applies a flip (left-right,
up-down, or both), the k-space target returned by `PreProcessCMG` and
`PreProcessCMGIMG` equals the forward 2D Fourier transform of the
flipped complex-image target, and inverse-transforming that k-space
target therefore magnitude-matches the flipped complex-image target
exactly. -/
theorem c7_augment_kspace_regen :
    (∀ (c h w : ℕ) (ch : String) (us cc : Bool) (res : ℕ) (mf : MaskFn w)
        (ud : Bool) (ks : KT c h w) (tg : RT2) (ats : Attrs) (f : String)
        (n : ℕ),
      (PreProcessCMG_core ch true us cc res mf true ud ks tg ats f n).kspace_targets =
        fft2 (PreProcessCMG_core ch true us cc res mf true ud ks tg ats f n).cmg_targets ∧
      complex_abs (ifft2
          (PreProcessCMG_core ch true us cc res mf true ud ks tg ats f n).kspace_targets) =
        complex_abs
          (PreProcessCMG_core ch true us cc res mf true ud ks tg ats f n).cmg_targets) ∧
    (∀ (c h w : ℕ) (ch : String) (us cc : Bool) (res : ℕ) (mf : MaskFn w)
        (ks : KT c h w) (tg : RT2) (ats : Attrs) (f : String) (n : ℕ),
      (PreProcessCMG_core ch true us cc res mf false true ks tg ats f n).kspace_targets =
        fft2 (PreProcessCMG_core ch true us cc res mf false true ks tg ats f n).cmg_targets ∧
      complex_abs (ifft2
          (PreProcessCMG_core ch true us cc res mf false true ks tg ats f n).kspace_targets) =
        complex_abs
          (PreProcessCMG_core ch true us cc res mf false true ks tg ats f n).cmg_targets) ∧
    (∀ (c h w : ℕ) (ch : String) (us cc : Bool) (res : ℕ) (mf : MaskFn w)
        (ud : Bool) (ks : KT c h w) (tg : RT2) (ats : Attrs) (f : String)
        (n : ℕ),
      (PreProcessCMGIMG_core ch true us cc res mf true ud ks tg ats f n).kspace_targets =
        fft2 (PreProcessCMGIMG_core ch true us cc res mf true ud ks tg ats f n).cmg_targets ∧
      complex_abs (ifft2
          (PreProcessCMGIMG_core ch true us cc res mf true ud ks tg ats f n).kspace_targets) =
        complex_abs
          (PreProcessCMGIMG_core ch true us cc res mf true ud ks tg ats f n).cmg_targets) ∧
    (∀ (c h w : ℕ) (ch : String) (us cc : Bool) (res : ℕ) (mf : MaskFn w)
        (ks : KT c h w) (tg : RT2) (ats : Attrs) (f : String) (n : ℕ),
      (PreProcessCMGIMG_core ch true us cc res mf false true ks tg ats f n).kspace_targets =
        fft2 (PreProcessCMGIMG_core ch true us cc res mf false true ks tg ats f n).cmg_targets ∧
      complex_abs (ifft2
          (PreProcessCMGIMG_core ch true us cc res mf false true ks tg ats f n).kspace_targets) =
        complex_abs
          (PreProcessCMGIMG_core ch true us cc res mf false true ks tg ats f n).cmg_targets) := by
  refine ⟨?_, ?_, ?_, ?_⟩
  · intro c h w ch us cc res mf ud ks tg ats f n
    have h1 : (PreProcessCMG_core ch true us cc res mf true ud ks tg ats f n).kspace_targets =
        fft2 (PreProcessCMG_core ch true us cc res mf true ud ks tg ats f n).cmg_targets := rfl
    exact ⟨h1, by rw [h1, ifft2_fft2]⟩
  · intro c h w ch us cc res mf ks tg ats f n
    have h1 : (PreProcessCMG_core ch true us cc res mf false true ks tg ats f n).kspace_targets =
        fft2 (PreProcessCMG_core ch true us cc res mf false true ks tg ats f n).cmg_targets := rfl
    exact ⟨h1, by rw [h1, ifft2_fft2]⟩
  · intro c h w ch us cc res mf ud ks tg ats f n
    have h1 : (PreProcessCMGIMG_core ch true us cc res mf true ud ks tg ats f n).kspace_targets =
        fft2 (PreProcessCMGIMG_core ch true us cc res mf true ud ks tg ats f n).cmg_targets := rfl
    exact ⟨h1, by rw [h1, ifft2_fft2]⟩
  · intro c h w ch us cc res mf ks tg ats f n
    have h1 : (PreProcessCMGIMG_core ch true us cc res mf false true ks tg ats f n).kspace_targets =
        fft2 (PreProcessCMGIMG_core ch true us cc res mf false true ks tg ats f n).cmg_targets := rfl
    exact ⟨h1, by rw [h1, ifft2_fft2]⟩

/-- C8 counterexample: `PreProcessCMG` keys the rss target on the
configured challenge string, not on the coil count, so a single-coil
(1-coil) slice processed under a "multicoil" configuration does get an
`rss_targets` key, contradicting the claim that the key is absent for
every single-coil input. -/
theorem c8_counterexample :
    "rss_targets" ∈
      (PreProcessCMG_core "multicoil" false true false 320 mfA false false
        ksA gt0 [] "f" 0).targetKeys :=
  (mem_keyList_CMG _).mpr rfl

/-- C8 (amended): `PreProcessWK` and `PreProcessWSK` include the
`rss_targets` key exactly when the slice has 15 coils; `PreProcessCMG`,
`PreProcessIMG` and `PreProcessWSemiKCC` include it exactly when the
configured challenge is "multicoil", regardless of the coil count. -/
theorem c8_rss_presence_amended (c h w : ℕ) (cfg : WKCfg) (kcfg : KCCCfg)
    (ch : String) (ad us cc : Bool) (res : ℕ) (mf : MaskFn w)
    (wf : WeightFn) (lr ud : Bool) (ks : KT c h w) (tg : RT2)
    (ats : Attrs) (f : String) (n : ℕ) :
    ("rss_targets" ∈
        (PreProcessWK_core cfg mf wf ks tg ats f n).targets.keyList ↔
      c = 15) ∧
    ("rss_targets" ∈
        (PreProcessWSK_core cfg mf wf ks tg ats f n).targets.keyList ↔
      c = 15) ∧
    ("rss_targets" ∈
        (PreProcessCMG_core ch ad us cc res mf lr ud ks tg ats f n).targetKeys ↔
      ch = "multicoil") ∧
    ("rss_targets" ∈
        (PreProcessIMG_core ch ad us cc res mf lr ud ks tg ats f n).targetKeys ↔
      ch = "multicoil") ∧
    ("rss_targets" ∈
        (PreProcessWSemiKCC_core kcfg mf wf ks tg ats f n).targetKeys ↔
      kcfg.challenge = "multicoil") := by
  refine ⟨?_, ?_, ?_, ?_, ?_⟩
  · rw [mem_keyList_WK]
    have h2 : (PreProcessWK_core cfg mf wf ks tg ats f n).targets.rss_targets =
        (if c = 15 then
          some (smulR2 (1 / tstd (wkWorking cfg mf wf ks f)) tg)
        else none) := rfl
    rw [h2]
    by_cases hc : c = 15 <;> simp [hc]
  · rw [mem_keyList_WSK]
    have h2 : (PreProcessWSK_core cfg mf wf ks tg ats f n).targets.rss_targets =
        (if c = 15 then some tg else none) := rfl
    rw [h2]
    by_cases hc : c = 15 <;> simp [hc]
  · cases ad with
    | true =>
        rw [mem_keyList_CMG]
        have h2 : (PreProcessCMG_core ch true us cc res mf lr ud ks tg ats f n).rss_targets =
            (if ch = "multicoil" then some (flips2Gt lr ud tg) else none) :=
          rfl
        rw [h2]
        by_cases hc : ch = "multicoil" <;> simp [hc]
    | false =>
        rw [mem_keyList_CMG]
        have h2 : (PreProcessCMG_core ch false us cc res mf lr ud ks tg ats f n).rss_targets =
            (if ch = "multicoil" then some tg else none) := rfl
        rw [h2]
        by_cases hc : ch = "multicoil" <;> simp [hc]
  · rw [mem_keyList_IMG]
    have h2 : (PreProcessIMG_core ch ad us cc res mf lr ud ks tg ats f n).rss_targets =
        (if ch = "multicoil" then
          some (if ad then flips2Gt lr ud tg else tg) else none) := rfl
    rw [h2]
    by_cases hc : ch = "multicoil" <;> simp [hc]
  · rw [mem_keyList_KCC]
    have h2 : (PreProcessWSemiKCC_core kcfg mf wf ks tg ats f n).rss_targets =
        (if kcfg.challenge = "multicoil" then some tg else none) := rfl
    rw [h2]
    by_cases hc : kcfg.challenge = "multicoil" <;> simp [hc]

end FastMRI
